import Mathlib

/-!
Verification development for the `indy-ventures` venture turn-resolution
engine (`src/scripts/engine.js`, `src/scripts/config.js`,
`src/scripts/utils.js` as concatenated in `main.js`, and
`src/scripts/chat.js`).

The engine's data is shallowly embedded: dice are the five-element ladder
`DICE_STEPS = ["d4","d6","d8","d10","d12"]` (all persisted dice are
normalized onto the ladder by `normalizeDie` / `parseEffectDie`, so the
embedded die type has exactly the five valid values); JS numbers holding
currency and roll totals are `Int` (all code paths considered round to
integers); wallet denominations are `Nat` (the code clamps every
denomination read with `parseCurrencyValue = Math.max(parseInt, 0)` and
every mutation keeps them non-negative).  Asynchronous prompt and roll
providers are passed in as explicit oracle values.
-/

namespace IndyVentures

/-- The dice step ladder, `DICE_STEPS` in `constants.js`, smallest to largest. -/
inductive Die where
  | d4
  | d6
  | d8
  | d10
  | d12
deriving DecidableEq, Repr

/-- `DICE_STEPS` as an ordered list, index = ladder position. -/
def DICE_STEPS : List Die := [.d4, .d6, .d8, .d10, .d12]

/-- Ladder position of a die, `DICE_STEPS.indexOf` for a valid die string. -/
def dieIndex : Die → Nat
  | .d4 => 0
  | .d6 => 1
  | .d8 => 2
  | .d10 => 3
  | .d12 => 4

/-- Inverse of `dieIndex` on `0..4` (indices are always clamped into range). -/
def dieOfIndex : Nat → Die
  | 0 => .d4
  | 1 => .d6
  | 2 => .d8
  | 3 => .d10
  | _ => .d12

/-- `clamp(value, min, max)` from `utils.js`: `Math.min(Math.max(value, min), max)`. -/
def clampInt (value lo hi : Int) : Int := min (max value lo) hi

/-- `shiftDie(die, steps)` from `utils.js`: shift along the ladder, clamped to
the ladder bounds (never wraps). -/
def shiftDie (die : Die) (steps : Int) : Die :=
  dieOfIndex (clampInt ((dieIndex die : Int) + steps) 0 ((DICE_STEPS.length : Int) - 1)).toNat

/-- `maxDie(first, second)` from `engine.js` for valid dice: compare by ladder
position, keep the larger (ties keep `first`). -/
def maxDie (first second : Die) : Die :=
  if dieIndex second > dieIndex first then second else first

/-- `minDie(first, second)` from `engine.js` for valid dice. -/
def minDie (first second : Die) : Die :=
  if dieIndex second < dieIndex first then second else first

/-- `applyMinimumDie(die, minimumDie)` from `engine.js`. -/
def applyMinimumDie (die : Die) : Option Die → Die
  | none => die
  | some minimumDie => maxDie die minimumDie

/-- `applyMaximumDie(die, maximumDie)` from `engine.js`. -/
def applyMaximumDie (die : Die) : Option Die → Die
  | none => die
  | some maximumDie => minDie die maximumDie

/-! ## Currency wallet (`engine.js` lines 28-299) -/

/-- The coverage wallet snapshot: one `Nat` per denomination plus the dirty
marker (`createCoverageWallet` reads every denomination through
`parseCurrencyValue`, which clamps to a non-negative integer). -/
structure Wallet where
  pp : Nat
  gp : Nat
  ep : Nat
  sp : Nat
  cp : Nat
  dirty : Bool
deriving DecidableEq, Repr

/-- `gpToCp(gp)`: `Math.max(Math.round(gp * 100), 0)`; on integer inputs the
rounding is the identity. -/
def gpToCp (gp : Int) : Int := max (gp * 100) 0

/-- `getWalletTotalCp(wallet)`: total purse value in copper using
`CURRENCY_IN_CP = (pp 1000, gp 100, ep 50, sp 10, cp 1)`. -/
def getWalletTotalCp (w : Wallet) : Nat :=
  w.pp * 1000 + w.gp * 100 + w.ep * 50 + w.sp * 10 + w.cp * 1

/-- `canCoverFromInventory(wallet, gpAmount)`. -/
def canCoverFromInventory (w : Wallet) (gpAmount : Int) : Bool :=
  (getWalletTotalCp w : Int) ≥ gpToCp gpAmount

/-- `spendFromGp(wallet, gpAmount)`: spend against the gp denomination only;
returns the success flag and the updated wallet. -/
def spendFromGp (w : Wallet) (gpAmount : Int) : Bool × Wallet :=
  let amount := max gpAmount 0
  if amount ≤ 0 then (true, w)
  else if (w.gp : Int) < amount then (false, w)
  else (true, { w with gp := ((w.gp : Int) - amount).toNat, dirty := true })

/-- `spendFromInventory(wallet, gpAmount)`: spend against the wallet's total
value, then rebuild the wallet greedily over `CURRENCY_ORDER`
(`pp, gp, ep, sp, cp`); the loop body is unrolled over the five fixed
denominations. -/
def spendFromInventory (w : Wallet) (gpAmount : Int) : Bool × Wallet :=
  let requiredCp := gpToCp gpAmount
  if requiredCp ≤ 0 then (true, w)
  else
    let totalCp := getWalletTotalCp w
    if (totalCp : Int) < requiredCp then (false, w)
    else
      let rem0 := ((totalCp : Int) - requiredCp).toNat
      let newPp := rem0 / 1000
      let rem1 := rem0 % 1000
      let newGp := rem1 / 100
      let rem2 := rem1 % 100
      let newEp := rem2 / 50
      let rem3 := rem2 % 50
      let newSp := rem3 / 10
      let rem4 := rem3 % 10
      let newCp := rem4 / 1
      (true, { pp := newPp, gp := newGp, ep := newEp, sp := newSp, cp := newCp, dirty := true })

/-! ## Venture config and state (`config.js`) -/

/-- The boon purchase window vocabulary recognized by
`parseBoonPurchaseWhen` in `utils.js`. -/
inductive PurchaseWhen where
  | default
  | loss
  | profit
deriving DecidableEq, Repr

/-- A parsed boon produced by `parseBoonsText` in `utils.js` (display-only
fields omitted).  The parser guarantees `cost ≥ 0`, `perTurnLimit` and
`groupPerTurnLimit` are `none` (unlimited) or a positive count, and an empty
`group` forces `groupPerTurnLimit = none`. -/
structure Boon where
  name : String
  cost : Int
  description : String
  rewardUuid : String
  perTurnLimit : Option Int
  purchaseWhen : PurchaseWhen
  group : String
  groupPerTurnLimit : Option Int
deriving DecidableEq, Repr

/-- `VentureConfig` after `sanitizeConfig` (the fields the engine reads).
`autoUseTreasuryLoss` and `naturalOneDegradesProfitDie` are not in
`sanitizeConfig`'s base object and flow through the merge untouched; they are
read through `Boolean(...)`-style coercions, so `Bool` is faithful. -/
structure VentureConfig where
  enabled : Bool
  profitDie : Die
  lossDie : Die
  lossModifier : Int
  gpPerPoint : Int
  autoCoverLoss : Bool
  autoUseTreasuryLoss : Bool
  naturalOneDegradesProfitDie : Bool
  successThreshold : Int
  boons : List Boon
deriving DecidableEq, Repr

/-- `VentureState` as the engine holds it in memory.  `boonPurchases` is the
per-turn purchase-count map (string key to count); `boonPurchasesTurnId` is
absent from `getInitialState` and defaults to the empty string. -/
structure VentureState where
  currentProfitDie : Die
  streak : Int
  treasury : Int
  failed : Bool
  lastTurnNet : Int
  turnId : String
  boonPurchasesTurnId : String
  boonPurchases : List (String × Int)
deriving DecidableEq, Repr

/-- Association-list lookup with JavaScript `Map.get` / property-read
semantics (first binding wins; the engine never stores duplicate keys). -/
def alistGet {α : Type} (m : List (String × α)) (k : String) : Option α :=
  (m.find? (fun e => e.1 = k)).map (fun e => e.2)

/-- Association-list update with JavaScript `Map.set` / property-write
semantics: replace the existing binding in place, otherwise append (the
engine never stores duplicate keys). -/
def alistSet {α : Type} : List (String × α) → String → α → List (String × α)
  | [], k, v => [(k, v)]
  | e :: rest, k, v => if e.1 = k then (k, v) :: rest else e :: alistSet rest k v

/-- `asInteger` from `utils.js` applied to a value that is already an
integer: `Number.parseInt` is the identity there. -/
def asIntegerInt (value : Int) : Int := value

/-- The raw persisted state before `sanitizeState`: numeric fields may be any
integers, the die may be any string, purchase counts may be any integers. -/
structure RawState where
  currentProfitDie : String
  streak : Int
  treasury : Int
  failed : Bool
  lastTurnNet : Int
  turnId : String
  boonPurchasesTurnId : String
  boonPurchases : List (String × Int)
deriving DecidableEq, Repr

/-- Recognize a ladder die string exactly as `DICE_STEPS.includes(die)` does
(no trimming, no lowercasing in `normalizeDie`). -/
def stringToDie : String → Option Die
  | "d4" => some .d4
  | "d6" => some .d6
  | "d8" => some .d8
  | "d10" => some .d10
  | "d12" => some .d12
  | _ => none

/-- `normalizeDie(die, fallback)` from `utils.js`. -/
def normalizeDie (die : String) (fallback : Die) : Die :=
  (stringToDie die).getD fallback

/-- `sanitizeState(raw, config)` from `config.js`: clamp the streak and
treasury at zero, normalize the die against the config's base profit die,
and drop non-positive purchase-count entries. -/
def sanitizeState (raw : RawState) (config : VentureConfig) : VentureState :=
  { currentProfitDie := normalizeDie raw.currentProfitDie config.profitDie
    streak := max (asIntegerInt raw.streak) 0
    treasury := max (asIntegerInt raw.treasury) 0
    failed := raw.failed
    lastTurnNet := asIntegerInt raw.lastTurnNet
    turnId := raw.turnId
    boonPurchasesTurnId := raw.boonPurchasesTurnId
    boonPurchases :=
      (raw.boonPurchases.map (fun e => (e.1, max (asIntegerInt e.2) 0))).filter
        (fun e => e.2 > 0) }

/-! ## Modifier aggregate (`collectActiveVentureModifiers` output) -/

/-- The aggregate modifier folded by `collectActiveVentureModifiers`
(`engine.js` lines 617-813).  `successThresholdOverride` is only ever stored
when positive (`getEffectModifierData` nulls out non-positive values). -/
structure Aggregate where
  profitDieStep : Int
  profitDieOverride : Option Die
  minProfitDie : Option Die
  lossDieStep : Int
  lossDieOverride : Option Die
  maxLossDie : Option Die
  successThresholdOverride : Option Int
  profitRollBonus : Int
deriving DecidableEq, Repr

/-- The neutral aggregate (no active modifier contributed). -/
def emptyAggregate : Aggregate :=
  { profitDieStep := 0, profitDieOverride := none, minProfitDie := none
    lossDieStep := 0, lossDieOverride := none, maxLossDie := none
    successThresholdOverride := none, profitRollBonus := 0 }

/-- One entry of the duration-ledger usage map: the remaining-turns counter
captured at scan time and the force-delete marker. -/
structure TrackedUsage where
  remainingTurns : Nat
  forceDelete : Bool
deriving DecidableEq, Repr

/-- The per-actor-turn duration usage map, keyed `ownerUuid::effectId`. -/
abbrev UsageMap := List (String × TrackedUsage)

/-- `queueModifierDurationUsage(usageMap, trackedEffects)`: first
registration wins. -/
def queueModifierDurationUsage (usage : UsageMap) (tracked : List (String × Nat)) : UsageMap :=
  tracked.foldl
    (fun m e =>
      if (alistGet m e.1).isSome then m
      else alistSet m e.1 { remainingTurns := e.2, forceDelete := false })
    usage

/-- `markModifiersForDeletion(usageMap, trackedEffects, reason)`: always
override with a force-delete registration, keeping any previously queued
remaining-turns value (the grow-consumable entries carry none themselves;
the reason string is dropped here). -/
def markModifiersForDeletion (usage : UsageMap) (keys : List String) : UsageMap :=
  keys.foldl
    (fun m k =>
      let existing := (alistGet m k).getD { remainingTurns := 0, forceDelete := false }
      alistSet m k { existing with forceDelete := true })
    usage

/-! ## Boon machinery (`utils.js`, `engine.js` lines 994-1033, 1655-1714) -/

/-- JavaScript `String.prototype.trim`: drop leading and trailing
whitespace (structural, over the character list). -/
def strTrim (s : String) : String :=
  String.mk (((s.data.dropWhile fun c => c.isWhitespace).reverse.dropWhile
    (fun c => c.isWhitespace)).reverse)

/-- JavaScript `String.prototype.toLowerCase` on the characters this module
feeds it (structural, over the character list). -/
def strToLower (s : String) : String := String.mk (s.data.map Char.toLower)

/-- `parseBoonPerTurnLimit` re-applied to an already-parsed limit (`null` or
a positive integer): `null` stays `null`, a non-positive number becomes
`null`, a positive number is unchanged. -/
def reparsePerTurnLimit : Option Int → Option Int
  | none => none
  | some n => if n ≤ 0 then none else some n

/-- The canonical text of a parsed purchase window (as stored by
`parseBoonPurchaseWhen`). -/
def purchaseWhenText : PurchaseWhen → String
  | .default => "default"
  | .loss => "loss"
  | .profit => "profit"

/-- `boonPurchaseWhenAllows(mode, net)` from `utils.js`. -/
def boonPurchaseWhenAllows (mode : PurchaseWhen) (net : Int) : Bool :=
  match mode with
  | .loss => net ≤ 0
  | .profit => net ≥ 0
  | .default => true

/-- `buildBoonKey(boon)` from `utils.js`: the content-derived identity key. -/
def buildBoonKey (boon : Boon) : String :=
  let limitText :=
    match reparsePerTurnLimit boon.perTurnLimit with
    | none => "unlimited"
    | some l => toString l
  let groupLimitText :=
    match reparsePerTurnLimit boon.groupPerTurnLimit with
    | none => ""
    | some l => toString l
  String.intercalate "::"
    [strTrim boon.name, toString boon.cost, strTrim boon.description, strTrim boon.rewardUuid,
      limitText, purchaseWhenText boon.purchaseWhen, strTrim boon.group, groupLimitText]

/-- Worker for the whitespace-run collapse: the flag records whether the
previous character was whitespace (so only the first of a run is kept, as a
plain space). -/
def collapseSpacesGo : Bool → List Char → List Char
  | _, [] => []
  | prevSpace, c :: rest =>
    if c.isWhitespace then
      if prevSpace then collapseSpacesGo true rest
      else ' ' :: collapseSpacesGo true rest
    else c :: collapseSpacesGo false rest

/-- Collapse every whitespace run to a single space,
`replace(/\s+/g, " ")`. -/
def collapseSpaces (l : List Char) : List Char := collapseSpacesGo false l

/-- `buildBoonGroupKey(boon)` from `utils.js`: normalized group name with the
fixed key namespace, or the empty string for ungrouped boons. -/
def buildBoonGroupKey (boon : Boon) : String :=
  let group := String.mk (collapseSpaces (strToLower (strTrim boon.group)).data)
  if group = "" then "" else "group::" ++ group

/-- `getBoonPurchasesThisTurn(state, boonIndex, boonKey)` from `engine.js`
(lines 994-1007): the count is zero unless the purchase window id matches the
state's turn id; otherwise take the defensive maximum of the content-key and
positional-key counters. -/
def getBoonPurchasesThisTurn (state : VentureState) (boonIndex : Nat) (boonKey : String) : Int :=
  if state.boonPurchasesTurnId = "" ∨ state.turnId = "" ∨
      state.boonPurchasesTurnId ≠ state.turnId then 0
  else
    let fromIndex := max ((alistGet state.boonPurchases (toString boonIndex)).getD 0) 0
    let key := strTrim boonKey
    if key ≠ "" then
      let fromKey := (alistGet state.boonPurchases key).getD 0
      max (max fromKey 0) fromIndex
    else fromIndex

/-- Recursive worker for `buildGroupLimitMap(boons)` (`engine.js` lines
1009-1020): tighten the stored limit with `Math.min` per declared group
limit. -/
def buildGroupLimitMapGo : List (String × Int) → List Boon → List (String × Int)
  | m, [] => m
  | m, boon :: rest =>
    let groupKey := buildBoonGroupKey boon
    let m' :=
      if groupKey = "" then m
      else
        match reparsePerTurnLimit boon.groupPerTurnLimit with
        | none => m
        | some limit =>
          match alistGet m groupKey with
          | none => alistSet m groupKey limit
          | some existing => alistSet m groupKey (min existing limit)
    buildGroupLimitMapGo m' rest

/-- `buildGroupLimitMap(boons)`. -/
def buildGroupLimitMap (boons : List Boon) : List (String × Int) :=
  buildGroupLimitMapGo [] boons

/-- Recursive worker for `buildGroupPurchaseCountMap(boons, state)`
(`engine.js` lines 1022-1033), threading the boon index. -/
def buildGroupPurchaseCountMapGo (state : VentureState) :
    Nat → List (String × Int) → List Boon → List (String × Int)
  | _, m, [] => m
  | i, m, boon :: rest =>
    let groupKey := buildBoonGroupKey boon
    let m' :=
      if groupKey = "" then m
      else
        alistSet m groupKey
          ((alistGet m groupKey).getD 0 + getBoonPurchasesThisTurn state i (buildBoonKey boon))
    buildGroupPurchaseCountMapGo state (i + 1) m' rest

/-- `buildGroupPurchaseCountMap(boons, state)`. -/
def buildGroupPurchaseCountMap (boons : List Boon) (state : VentureState) :
    List (String × Int) :=
  buildGroupPurchaseCountMapGo state 0 [] boons

/-- One evaluated boon row of the turn result (`engine.js` lines 1658-1714,
display-only fields omitted). -/
structure BoonEval where
  index : Nat
  cost : Int
  boonKey : String
  groupKey : String
  groupPerTurnLimit : Option Int
  purchasedInGroupThisTurn : Int
  perTurnLimit : Option Int
  purchaseWhen : PurchaseWhen
  purchaseWhenAllowed : Bool
  purchasedThisTurn : Int
  affordable : Bool
  purchasable : Bool
deriving DecidableEq, Repr

/-- Evaluate one boon exactly as the mapping body in `processSingleVenture`
does (`engine.js` lines 1658-1690). -/
def evaluateBoon (groupLimitMap groupPurchaseCountMap : List (String × Int))
    (state : VentureState) (net : Int) (index : Nat) (boon : Boon) : BoonEval :=
  let boonKey := buildBoonKey boon
  let groupKey := buildBoonGroupKey boon
  let baseGroupPerTurnLimit := reparsePerTurnLimit boon.groupPerTurnLimit
  let mappedGroupPerTurnLimit :=
    if groupKey = "" then none else alistGet groupLimitMap groupKey
  let groupPerTurnLimit :=
    match mappedGroupPerTurnLimit with
    | none => baseGroupPerTurnLimit
    | some v => some v
  let purchasedThisTurn := getBoonPurchasesThisTurn state index boonKey
  let purchasedInGroupThisTurn :=
    if groupKey = "" then 0
    else max ((alistGet groupPurchaseCountMap groupKey).getD 0) 0
  let perTurnLimit := reparsePerTurnLimit boon.perTurnLimit
  let purchaseWhenAllowed := boonPurchaseWhenAllows boon.purchaseWhen net
  let underTurnLimit :=
    match perTurnLimit with
    | none => true
    | some l => purchasedThisTurn < l
  let underGroupLimit :=
    groupKey = "" ||
      match groupPerTurnLimit with
      | none => true
      | some l => purchasedInGroupThisTurn < l
  let affordable : Bool := state.treasury ≥ boon.cost
  { index := index
    cost := boon.cost
    boonKey := boonKey
    groupKey := groupKey
    groupPerTurnLimit := groupPerTurnLimit
    purchasedInGroupThisTurn := purchasedInGroupThisTurn
    perTurnLimit := perTurnLimit
    purchaseWhen := boon.purchaseWhen
    purchaseWhenAllowed := purchaseWhenAllowed
    purchasedThisTurn := purchasedThisTurn
    affordable := affordable
    purchasable := affordable && underTurnLimit && underGroupLimit && purchaseWhenAllowed }

/-- Index-threading worker for the boon evaluation map. -/
def evaluateBoonsGo (groupLimitMap groupPurchaseCountMap : List (String × Int))
    (state : VentureState) (net : Int) : Nat → List Boon → List BoonEval
  | _, [] => []
  | i, boon :: rest =>
    evaluateBoon groupLimitMap groupPurchaseCountMap state net i boon ::
      evaluateBoonsGo groupLimitMap groupPurchaseCountMap state net (i + 1) rest

/-- The boon list computed at the end of `processSingleVenture`
(`engine.js` lines 1655-1714). -/
def evaluateBoons (boons : List Boon) (state : VentureState) (net : Int) : List BoonEval :=
  evaluateBoonsGo (buildGroupLimitMap boons) (buildGroupPurchaseCountMap boons state)
    state net 0 boons

/-! ## Deficit coverage negotiation (`engine.js` lines 1150-1396) -/

/-- A manual coverage choice as carried on the dialog buttons and the socket
payload (any unrecognized string behaves like `decline` downstream). -/
inductive CoverageChoice where
  | treasuryActor
  | actor
  | decline
deriving DecidableEq, Repr

/-- The fate of a delegated (socket) coverage request: either a response
arrived before the timeout, or the timeout fired. -/
inductive RemoteDecision where
  | response (choice : CoverageChoice)
  | timeout
deriving DecidableEq, Repr

/-- The value `requestCoverageDecisionFromOwner` resolves with. -/
structure CoverageDecision where
  choice : CoverageChoice
  timedOut : Bool
deriving DecidableEq, Repr

/-- `requestCoverageDecisionFromOwner` (`engine.js` lines 1150-1203): a
received response resolves with its choice and `timedOut: false` (via
`onCoverageResponse`); the timeout resolves with `choice: "decline"` and
`timedOut: true`. -/
def requestCoverageDecisionFromOwner : RemoteDecision → CoverageDecision
  | .response c => { choice := c, timedOut := false }
  | .timeout => { choice := .decline, timedOut := true }

/-- How the coverage prompt is answered: locally (the acting user is the
decision-maker, no timeout exists) or through the remote request/response
exchange. -/
inductive PromptOutcome where
  | localDecision (choice : CoverageChoice)
  | remoteDecision (d : RemoteDecision)
deriving DecidableEq, Repr

/-- The result record both coverage helpers build (`promptUserName`
omitted). -/
structure CoverageResult where
  coveredCharacter : Bool
  autoCovered : Bool
  manualCovered : Bool
  coveredByInventory : Bool
  promptDeclined : Bool
  promptTimedOut : Bool
  insufficientFunds : Bool
  characterCovered : Int
  treasuryCovered : Int
deriving DecidableEq, Repr

/-- The all-false initializer of `CoverageResult`. -/
def emptyCoverageResult : CoverageResult :=
  { coveredCharacter := false, autoCovered := false, manualCovered := false
    coveredByInventory := false, promptDeclined := false, promptTimedOut := false
    insufficientFunds := false, characterCovered := 0, treasuryCovered := 0 }

/-- `maybeCoverDeficitTreasuryOrActor` (`engine.js` lines 1205-1298), the
fully-manual coverage path: returns the result record, the new treasury and
the new wallet. -/
def maybeCoverDeficitTreasuryOrActor (treasury : Int) (wallet : Wallet) (deficit : Int)
    (prompt : PromptOutcome) : CoverageResult × Int × Wallet :=
  if deficit ≤ 0 then (emptyCoverageResult, treasury, wallet)
  else
    let treasuryAvailable := min treasury deficit
    let actorNeededAfterTreasury := max (deficit - treasuryAvailable) 0
    let canCoverWithTreasuryAndActor :=
      decide (treasuryAvailable > 0) && canCoverFromInventory wallet actorNeededAfterTreasury
    let canCoverWithActor := canCoverFromInventory wallet deficit
    if !canCoverWithTreasuryAndActor && !canCoverWithActor then
      ({ emptyCoverageResult with insufficientFunds := true }, treasury, wallet)
    else
      let decision :=
        match prompt with
        | .localDecision c => ({ choice := c, timedOut := false } : CoverageDecision)
        | .remoteDecision d => requestCoverageDecisionFromOwner d
      match decision.choice with
      | .treasuryActor =>
        let treasury1 := if treasuryAvailable > 0 then treasury - treasuryAvailable else treasury
        let treasuryCovered := if treasuryAvailable > 0 then treasuryAvailable else 0
        if actorNeededAfterTreasury > 0 then
          match spendFromInventory wallet actorNeededAfterTreasury with
          | (false, w1) =>
            ({ emptyCoverageResult with
                promptTimedOut := decision.timedOut
                treasuryCovered := treasuryCovered }, treasury1, w1)
          | (true, w1) =>
            ({ emptyCoverageResult with
                promptTimedOut := decision.timedOut
                treasuryCovered := treasuryCovered
                coveredByInventory := true
                characterCovered := actorNeededAfterTreasury
                coveredCharacter := true
                manualCovered := true }, treasury1, w1)
        else
          ({ emptyCoverageResult with
              promptTimedOut := decision.timedOut
              treasuryCovered := treasuryCovered
              coveredCharacter := true
              manualCovered := true }, treasury1, wallet)
      | .actor =>
        match spendFromInventory wallet deficit with
        | (false, w1) =>
          ({ emptyCoverageResult with promptTimedOut := decision.timedOut }, treasury, w1)
        | (true, w1) =>
          ({ emptyCoverageResult with
              promptTimedOut := decision.timedOut
              coveredCharacter := true
              manualCovered := true
              coveredByInventory := true
              characterCovered := deficit }, treasury, w1)
      | .decline =>
        ({ emptyCoverageResult with
            promptTimedOut := decision.timedOut
            promptDeclined := !decision.timedOut }, treasury, wallet)

/-- `maybeCoverCharacterDeficit` (`engine.js` lines 1300-1396): cover the
character-side remainder, automatically from the gp denomination when
`autoCoverLoss` is set, otherwise through a local or remote prompt.  The
venture treasury is never touched here. -/
def maybeCoverCharacterDeficit (wallet : Wallet) (characterCover : Int)
    (autoCoverLoss : Bool) (prompt : PromptOutcome) : CoverageResult × Wallet :=
  if characterCover ≤ 0 then ({ emptyCoverageResult with coveredCharacter := true }, wallet)
  else
    let canCoverWithGp := decide ((wallet.gp : Int) ≥ characterCover)
    let canCoverWithActor := canCoverFromInventory wallet characterCover
    if !canCoverWithGp && !canCoverWithActor then
      ({ emptyCoverageResult with insufficientFunds := true }, wallet)
    else if autoCoverLoss then
      let insufficient := !canCoverWithGp
      match spendFromGp wallet characterCover with
      | (false, w1) => ({ emptyCoverageResult with insufficientFunds := insufficient }, w1)
      | (true, w1) =>
        ({ emptyCoverageResult with
            insufficientFunds := insufficient
            coveredCharacter := true
            autoCovered := true
            characterCovered := characterCover }, w1)
    else
      match prompt with
      | .localDecision choice =>
        if choice = .actor then
          match spendFromInventory wallet characterCover with
          | (false, w1) => (emptyCoverageResult, w1)
          | (true, w1) =>
            ({ emptyCoverageResult with
                coveredCharacter := true
                manualCovered := true
                coveredByInventory := true
                characterCovered := characterCover }, w1)
        else ({ emptyCoverageResult with promptDeclined := true }, wallet)
      | .remoteDecision d =>
        let decision := requestCoverageDecisionFromOwner d
        if decision.choice = .actor then
          match spendFromInventory wallet characterCover with
          | (false, w1) =>
            ({ emptyCoverageResult with promptTimedOut := decision.timedOut }, w1)
          | (true, w1) =>
            ({ emptyCoverageResult with
                promptTimedOut := decision.timedOut
                coveredCharacter := true
                manualCovered := true
                coveredByInventory := true
                characterCovered := characterCover }, w1)
        else
          ({ emptyCoverageResult with
              promptTimedOut := decision.timedOut
              promptDeclined := !decision.timedOut }, wallet)

/-! ## Turn resolution (`processSingleVenture`, `engine.js` lines 1402-1857) -/

/-- The facility properties `isFacilityEligibleForVenture` inspects besides
the venture config/state. -/
structure FacilityMeta where
  typeIsSpecial : Bool
  systemDisabled : Bool
deriving DecidableEq, Repr

/-- `isFacilityEligibleForVenture(facility, config, state)` (`engine.js`
lines 925-930). -/
def isFacilityEligibleForVenture (facility : FacilityMeta) (config : VentureConfig)
    (state : VentureState) : Bool :=
  if !config.enabled || state.failed then false
  else if !facility.typeIsSpecial then false
  else if facility.systemDisabled then false
  else true

/-- The per-turn environment of one venture: the turn identifier, the
modifier aggregate and its tracked/grow-consumable entries (output of
`collectActiveVentureModifiers`), the two roll totals delivered by the roll
provider, and the coverage-prompt oracle. -/
structure TurnInput where
  turnId : String
  agg : Aggregate
  growConsumables : List String
  trackedEffects : List (String × Nat)
  profitRollTotal : Int
  lossRollTotal : Int
  prompt : PromptOutcome
deriving DecidableEq, Repr

/-- Outcome of the net-sign branch of `processSingleVenture` (`engine.js`
lines 1535-1639): mutated config/state/wallet/usage plus every coverage and
transition flag set in that branch. -/
structure SettleOutcome where
  config : VentureConfig
  state : VentureState
  wallet : Wallet
  usage : UsageMap
  deficit : Int
  coveredDeficit : Bool
  autoCovered : Bool
  manualCovered : Bool
  coveredByInventory : Bool
  treasuryCovered : Int
  characterCovered : Int
  uncoveredDeficit : Int
  promptDeclined : Bool
  promptTimedOut : Bool
  insufficientFunds : Bool
  hasCoverageSources : Bool
  grew : Bool
  degraded : Bool
  failed : Bool
deriving DecidableEq, Repr

/-- The failure-or-degrade step after coverage (`engine.js` lines
1629-1638): on an uncovered deficit, fail terminally if the die sits at the
ladder floor `d4` (also disabling the config), otherwise shift the profit
die one step down, floored at the aggregate minimum.  Returns config, state,
the degraded flag and the failed flag. -/
def applyFailureOrDegrade (agg : Aggregate) (config : VentureConfig)
    (state : VentureState) (coveredDeficit : Bool) :
    VentureConfig × VentureState × Bool × Bool :=
  if !coveredDeficit && state.currentProfitDie = Die.d4 then
    ({ config with enabled := false }, { state with failed := true }, false, true)
  else if !coveredDeficit then
    let previousDie := state.currentProfitDie
    let downgraded := shiftDie state.currentProfitDie (-1)
    let newDie := applyMinimumDie downgraded agg.minProfitDie
    (config, { state with currentProfitDie := newDie },
      decide (dieIndex newDie < dieIndex previousDie), false)
  else (config, state, false, false)

/-- The net-sign branch of `processSingleVenture` (`engine.js` lines
1535-1639). -/
def settleNet (config : VentureConfig) (state : VentureState) (wallet : Wallet)
    (usage : UsageMap) (agg : Aggregate) (growConsumables : List String)
    (prompt : PromptOutcome) (net : Int) (naturalOnePenaltyApplies : Bool)
    (effectiveSuccessThreshold : Int) : SettleOutcome :=
  let base : SettleOutcome :=
    { config := config
      state := state
      wallet := wallet
      usage := usage
      deficit := 0
      coveredDeficit := false
      autoCovered := false
      manualCovered := false
      coveredByInventory := false
      treasuryCovered := 0
      characterCovered := 0
      uncoveredDeficit := 0
      promptDeclined := false
      promptTimedOut := false
      insufficientFunds := false
      hasCoverageSources := false
      grew := false
      degraded := false
      failed := false }
  if net > 0 then
    let state1 := { state with treasury := state.treasury + net }
    if !naturalOnePenaltyApplies then
      let streak1 := state1.streak + 1
      if streak1 ≥ effectiveSuccessThreshold then
        let previousDie := state1.currentProfitDie
        let newDie := shiftDie previousDie 1
        let grew := decide (dieIndex newDie > dieIndex previousDie)
        let usage1 := if grew then markModifiersForDeletion usage growConsumables else usage
        { base with
            state := { state1 with currentProfitDie := newDie, streak := 0 }
            usage := usage1
            grew := grew }
      else { base with state := { state1 with streak := streak1 } }
    else { base with state := { state1 with streak := 0 } }
  else if net = 0 then base
  else
    let deficit := |net|
    let state1 := { state with streak := 0 }
    if config.autoUseTreasuryLoss then
      let treasuryCovered := min state1.treasury deficit
      let state2 := { state1 with treasury := state1.treasury - treasuryCovered }
      let characterDeficit := max (deficit - treasuryCovered) 0
      let coverage := maybeCoverCharacterDeficit wallet characterDeficit config.autoCoverLoss prompt
      let cov := coverage.1
      let characterCovered := cov.characterCovered
      let coveredDeficit := decide (treasuryCovered + characterCovered ≥ deficit)
      let fd := applyFailureOrDegrade agg config state2 coveredDeficit
      { base with
          config := fd.1
          state := fd.2.1
          wallet := coverage.2
          deficit := deficit
          coveredDeficit := coveredDeficit
          autoCovered := cov.autoCovered
          manualCovered := cov.manualCovered
          coveredByInventory := cov.coveredByInventory
          treasuryCovered := treasuryCovered
          characterCovered := characterCovered
          uncoveredDeficit := max (deficit - treasuryCovered - characterCovered) 0
          promptDeclined := cov.promptDeclined
          promptTimedOut := cov.promptTimedOut
          insufficientFunds := cov.insufficientFunds
          hasCoverageSources := decide (treasuryCovered > 0) || decide (characterCovered > 0)
          degraded := fd.2.2.1
          failed := fd.2.2.2 }
    else if config.autoCoverLoss then
      let coverage := maybeCoverCharacterDeficit wallet deficit true prompt
      let cov := coverage.1
      let characterCovered := cov.characterCovered
      let coveredDeficit := decide (characterCovered ≥ deficit)
      let fd := applyFailureOrDegrade agg config state1 coveredDeficit
      { base with
          config := fd.1
          state := fd.2.1
          wallet := coverage.2
          deficit := deficit
          coveredDeficit := coveredDeficit
          autoCovered := cov.autoCovered
          manualCovered := cov.manualCovered
          coveredByInventory := cov.coveredByInventory
          treasuryCovered := 0
          characterCovered := characterCovered
          uncoveredDeficit := max (deficit - characterCovered) 0
          promptDeclined := cov.promptDeclined
          promptTimedOut := cov.promptTimedOut
          insufficientFunds := cov.insufficientFunds
          hasCoverageSources := decide (characterCovered > 0)
          degraded := fd.2.2.1
          failed := fd.2.2.2 }
    else
      let coverage := maybeCoverDeficitTreasuryOrActor state1.treasury wallet deficit prompt
      let cov := coverage.1
      let state2 := { state1 with treasury := coverage.2.1 }
      let treasuryCovered := cov.treasuryCovered
      let characterCovered := cov.characterCovered
      let coveredDeficit := decide (treasuryCovered + characterCovered ≥ deficit)
      let fd := applyFailureOrDegrade agg config state2 coveredDeficit
      { base with
          config := fd.1
          state := fd.2.1
          wallet := coverage.2.2
          deficit := deficit
          coveredDeficit := coveredDeficit
          autoCovered := cov.autoCovered
          manualCovered := cov.manualCovered
          coveredByInventory := cov.coveredByInventory
          treasuryCovered := treasuryCovered
          characterCovered := characterCovered
          uncoveredDeficit := max (deficit - treasuryCovered - characterCovered) 0
          promptDeclined := cov.promptDeclined
          promptTimedOut := cov.promptTimedOut
          insufficientFunds := cov.insufficientFunds
          hasCoverageSources := decide (treasuryCovered > 0) || decide (characterCovered > 0)
          degraded := fd.2.2.1
          failed := fd.2.2.2 }

/-- The structured turn result (`engine.js` lines 1812-1856, display-only
fields omitted). -/
structure TurnResult where
  previousProfitDie : Die
  profitDieRolled : Die
  lossDieRolled : Die
  nextProfitDie : Die
  effectiveSuccessThreshold : Int
  rawProfitRollTotal : Int
  profitRollBonus : Int
  profitRollTotal : Int
  lossRollTotal : Int
  gpPerPoint : Int
  income : Int
  outgoings : Int
  net : Int
  deficit : Int
  coveredDeficit : Bool
  autoCovered : Bool
  manualCovered : Bool
  coveredByInventory : Bool
  treasuryCovered : Int
  characterCovered : Int
  uncoveredDeficit : Int
  hasCoverageSources : Bool
  promptDeclined : Bool
  promptTimedOut : Bool
  insufficientFunds : Bool
  streak : Int
  treasury : Int
  grew : Bool
  degraded : Bool
  naturalOneDegraded : Bool
  failed : Bool
  boons : List BoonEval
deriving DecidableEq, Repr

/-- Everything `processSingleVenture` leaves behind: the persisted config and
state, the shared wallet, the duration-usage map, and the returned result. -/
structure TurnOutput where
  config : VentureConfig
  state : VentureState
  wallet : Wallet
  usage : UsageMap
  result : TurnResult
deriving DecidableEq, Repr

/-- The turn-identifier adoption step at the top of `processSingleVenture`
(`engine.js` lines 1407-1414): on a new turn id, adopt it and reset the
per-turn purchase map; repair a stale purchase-window id likewise. -/
def adoptTurnId (state : VentureState) (turnId : String) : VentureState :=
  if turnId ≠ "" ∧ state.turnId ≠ turnId then
    { state with
        turnId := turnId
        boonPurchasesTurnId := turnId
        boonPurchases := [] }
  else if state.turnId ≠ "" ∧ state.boonPurchasesTurnId ≠ state.turnId then
    { state with boonPurchasesTurnId := state.turnId, boonPurchases := [] }
  else state

/-- `processSingleVenture(facility, actor, wallet, turnId,
modifierDurationUsage)` (`engine.js` lines 1402-1857): `none` when the
facility is skipped by the eligibility gate, otherwise the full turn
outcome.  The modifier scan's aggregate, the roll totals and the coverage
prompt answer arrive through `input`. -/
def processSingleVenture (facility : FacilityMeta) (config : VentureConfig)
    (state : VentureState) (wallet : Wallet) (input : TurnInput) (usage : UsageMap) :
    Option TurnOutput :=
  if !isFacilityEligibleForVenture facility config state then none
  else
    let state1 := adoptTurnId state input.turnId
    let usage1 := queueModifierDurationUsage usage input.trackedEffects
    let agg := input.agg
    let baseProfitDie := state1.currentProfitDie
    let baseSuccessThreshold := max config.successThreshold 1
    let steppedProfitDie := shiftDie baseProfitDie agg.profitDieStep
    let rolledProfitDie := applyMinimumDie (agg.profitDieOverride.getD steppedProfitDie) agg.minProfitDie
    let steppedLossDie := shiftDie config.lossDie (config.lossModifier + agg.lossDieStep)
    let lossDieRolled := applyMaximumDie (agg.lossDieOverride.getD steppedLossDie) agg.maxLossDie
    let effectiveSuccessThreshold :=
      max
        (let v := agg.successThresholdOverride.getD baseSuccessThreshold
         if v = 0 then baseSuccessThreshold else v)
        1
    let rawProfitRollTotal := input.profitRollTotal
    let profitRollBonus := agg.profitRollBonus
    let profitRollTotal := max (rawProfitRollTotal + profitRollBonus) 0
    let gpPerPoint := max config.gpPerPoint 0
    let income := profitRollTotal * gpPerPoint
    let outgoings := input.lossRollTotal * gpPerPoint
    let net := income - outgoings
    let naturalOnePenaltyApplies :=
      config.naturalOneDegradesProfitDie && decide (rawProfitRollTotal = 1)
    let state2 := { state1 with lastTurnNet := net }
    let settled := settleNet config state2 wallet usage1 agg input.growConsumables
      input.prompt net naturalOnePenaltyApplies effectiveSuccessThreshold
    let afterNat :=
      if naturalOnePenaltyApplies && !settled.failed && !settled.degraded then
        let previousDie := settled.state.currentProfitDie
        let downgraded := shiftDie previousDie (-1)
        let newDie := applyMinimumDie downgraded agg.minProfitDie
        let naturalOneDegraded := decide (dieIndex newDie < dieIndex previousDie)
        ({ settled.state with currentProfitDie := newDie, streak := 0 },
          (if naturalOneDegraded then false else settled.grew),
          settled.degraded || naturalOneDegraded,
          naturalOneDegraded)
      else (settled.state, settled.grew, settled.degraded, false)
    let state3 := afterNat.1
    let boons := evaluateBoons settled.config.boons state3 net
    some
      { config := settled.config
        state := state3
        wallet := settled.wallet
        usage := settled.usage
        result :=
          { previousProfitDie := baseProfitDie
            profitDieRolled := rolledProfitDie
            lossDieRolled := lossDieRolled
            nextProfitDie := state3.currentProfitDie
            effectiveSuccessThreshold := effectiveSuccessThreshold
            rawProfitRollTotal := rawProfitRollTotal
            profitRollBonus := profitRollBonus
            profitRollTotal := profitRollTotal
            lossRollTotal := input.lossRollTotal
            gpPerPoint := gpPerPoint
            income := income
            outgoings := outgoings
            net := net
            deficit := settled.deficit
            coveredDeficit := settled.coveredDeficit
            autoCovered := settled.autoCovered
            manualCovered := settled.manualCovered
            coveredByInventory := settled.coveredByInventory
            treasuryCovered := settled.treasuryCovered
            characterCovered := settled.characterCovered
            uncoveredDeficit := settled.uncoveredDeficit
            hasCoverageSources := settled.hasCoverageSources
            promptDeclined := settled.promptDeclined
            promptTimedOut := settled.promptTimedOut
            insufficientFunds := settled.insufficientFunds
            streak := state3.streak
            treasury := state3.treasury
            grew := afterNat.2.1
            degraded := afterNat.2.2.1
            naturalOneDegraded := afterNat.2.2.2
            failed := settled.failed
            boons := boons } }

/-! ## Boon purchase (`chat.js` lines 265-329 and 653-751) -/

/-- `getBoonPurchasesThisTurn(state, boonIndex, boonKey)` as defined in
`chat.js` (lines 265-272): no turn-id gate, and the content key fully
shadows the positional key when present. -/
def chatGetBoonPurchasesThisTurn (state : VentureState) (boonIndex : Nat) (boonKey : String) : Int :=
  let key := strTrim boonKey
  if key ≠ "" then max ((alistGet state.boonPurchases key).getD 0) 0
  else max ((alistGet state.boonPurchases (toString boonIndex)).getD 0) 0

/-- The availability fields of `withBoonAvailability(boon, state, boonIndex,
turnNet)` from `chat.js` (lines 293-329). -/
structure ChatBoonAvailability where
  purchasedThisTurn : Int
  purchasedInGroupThisTurn : Int
  affordable : Bool
  purchasable : Bool
deriving DecidableEq, Repr

/-- `withBoonAvailability` from `chat.js`, availability fields only. -/
def withBoonAvailability (boon : Boon) (state : VentureState) (boonIndex : Nat)
    (turnNet : Int) : ChatBoonAvailability :=
  let boonKey := buildBoonKey boon
  let groupKey := buildBoonGroupKey boon
  let groupPerTurnLimit := reparsePerTurnLimit boon.groupPerTurnLimit
  let perTurnLimit := reparsePerTurnLimit boon.perTurnLimit
  let purchasedThisTurn := chatGetBoonPurchasesThisTurn state boonIndex boonKey
  let purchasedInGroupThisTurn :=
    if groupKey = "" then 0 else chatGetBoonPurchasesThisTurn state boonIndex groupKey
  let affordable : Bool := state.treasury ≥ boon.cost
  let underTurnLimit :=
    match perTurnLimit with
    | none => true
    | some l => decide (purchasedThisTurn < l)
  let underGroupTurnLimit :=
    (groupKey = "") ||
      match groupPerTurnLimit with
      | none => true
      | some l => decide (purchasedInGroupThisTurn < l)
  let purchaseWhenAllowed := boonPurchaseWhenAllows boon.purchaseWhen turnNet
  { purchasedThisTurn := purchasedThisTurn
    purchasedInGroupThisTurn := purchasedInGroupThisTurn
    affordable := affordable
    purchasable := affordable && underTurnLimit && underGroupTurnLimit && purchaseWhenAllowed }

/-- The state mutation of a successful boon purchase (`onPurchaseBoon`,
`chat.js` lines 666-716): blocked purchases leave the state alone (`none`);
otherwise deduct the cost and bump the content, positional and group
counters (the reward grant and its rollback are outside this state
transition). -/
def applyBoonPurchase (state : VentureState) (boon : Boon) (boonIndex : Nat)
    (turnNet : Int) : Option VentureState :=
  let purchaseState := withBoonAvailability boon state boonIndex turnNet
  if !purchaseState.purchasable then none
  else
    let boonKey := buildBoonKey boon
    let groupKey := buildBoonGroupKey boon
    let previousPurchaseCount := chatGetBoonPurchasesThisTurn state boonIndex boonKey
    let previousGroupPurchaseCount :=
      if groupKey = "" then 0 else chatGetBoonPurchasesThisTurn state boonIndex groupKey
    let purchases1 := alistSet state.boonPurchases boonKey (previousPurchaseCount + 1)
    let purchases2 := alistSet purchases1 (toString boonIndex) (previousPurchaseCount + 1)
    let purchases3 :=
      if groupKey ≠ "" then alistSet purchases2 groupKey (previousGroupPurchaseCount + 1)
      else purchases2
    some { state with treasury := state.treasury - boon.cost, boonPurchases := purchases3 }

/-! ## Bastion-message turn processing (`engine.js` lines 63-72 and
1881-1972) -/

/-- The `dnd5e.bastion` message flag fields `buildBastionDedupKey` reads
(`turnId ?? turn.id ?? id`, `orders` array presence). -/
structure BastionData where
  turnId : Option String
  turnInnerId : Option String
  dataId : Option String
  hasOrders : Bool
deriving DecidableEq, Repr

/-- `buildBastionDedupKey(message, bastionData)` (`engine.js` lines 63-72). -/
def buildBastionDedupKey (bastion : BastionData) : String :=
  let stableTurnId := strTrim (bastion.turnId.getD (bastion.turnInnerId.getD (bastion.dataId.getD "")))
  if stableTurnId ≠ "" then "turn:" ++ stableTurnId else ""

/-- The chat message fields the turn-trigger handler inspects. -/
structure BastionMessage where
  uuid : String
  isRoll : Bool
  rollsCount : Nat
  processedFlag : Bool
  bastion : Option BastionData
deriving DecidableEq, Repr

/-- A connected session participant. -/
structure SessionUser where
  id : String
  active : Bool
  isGM : Bool
deriving DecidableEq, Repr

/-- The game-level environment of the handler. -/
structure GameEnv where
  currentUserId : String
  users : List SessionUser
  integrateBastion : Bool
deriving DecidableEq, Repr

/-- Whether `game.user.isGM` holds for the acting user. -/
def currentUserIsGM (env : GameEnv) : Bool :=
  ((env.users.find? (fun u => u.id = env.currentUserId)).map (fun u => u.isGM)).getD false

/-- The coordinator id: active GM user ids sorted ascending, first element
(`engine.js` lines 1896-1899); the first element of an ascending sort is the
lexicographic minimum. -/
def primaryGmId (env : GameEnv) : Option String :=
  ((env.users.filter (fun u => u.active && u.isGM)).map (fun u => u.id)).foldl
    (fun acc i =>
      match acc with
      | none => some i
      | some a => some (min a i))
    none

/-- The module's in-memory dedup sets (`processedBastionMessages` and
`processedActorTurnKeys`). -/
structure SessionState where
  processedBastionMessages : List String
  processedActorTurnKeys : List String
deriving DecidableEq, Repr

/-- One facility of the actor, with its per-turn oracle (the `turnId` inside
`turnEnv` is replaced by the message uuid when processing). -/
structure FacilityEntry where
  meta : FacilityMeta
  config : VentureConfig
  state : VentureState
  turnEnv : TurnInput
deriving DecidableEq, Repr

/-- The actor document as seen by the handler: the facility items, the
currency purse, the duration-carrying effects (keyed `ownerUuid::effectId`,
value `remainingTurns`), and the pre-scanned bastion-duration entries
(`collectActiveBastionDurationEffects` output). -/
structure ActorDoc where
  uuid : String
  isCharacter : Bool
  facilities : List FacilityEntry
  currency : Wallet
  effectDurations : List (String × Nat)
  bastionDurationTracked : List (String × Nat)
deriving DecidableEq, Repr

/-- The shared mutable world of one handler invocation. -/
structure World where
  session : SessionState
  message : BastionMessage
  actor : ActorDoc
  actorFound : Bool
deriving DecidableEq, Repr

/-- `decrementModifierDurations(usageMap)` (`engine.js` lines 859-923)
applied to the flat effect-duration store: force-deletes remove the effect;
an active counter is decremented, deleting the effect when it reaches zero
(owner batching collapses to the same per-key effect). -/
def decrementModifierDurations (effects : List (String × Nat)) (usage : UsageMap) :
    List (String × Nat) :=
  usage.foldl
    (fun effs entry =>
      if entry.2.forceDelete then effs.filter (fun e => e.1 ≠ entry.1)
      else if entry.2.remainingTurns ≤ 0 then effs
      else if entry.2.remainingTurns - 1 ≤ 0 then effs.filter (fun e => e.1 ≠ entry.1)
      else alistSet effs entry.1 (entry.2.remainingTurns - 1))
    effects

/-- The strictly-sequential facility loop (`engine.js` lines 1941-1944),
threading the shared wallet and the duration-usage map; returns the updated
facility list, the final wallet and usage map, and the number of non-skipped
results. -/
def processFacilities (turnId : String) :
    List FacilityEntry → Wallet → UsageMap → List FacilityEntry × Wallet × UsageMap × Nat
  | [], w, u => ([], w, u, 0)
  | f :: rest, w, u =>
    match processSingleVenture f.meta f.config f.state w { f.turnEnv with turnId := turnId } u with
    | none =>
      let tail := processFacilities turnId rest w u
      (f :: tail.1, tail.2.1, tail.2.2.1, tail.2.2.2)
    | some o =>
      let tail := processFacilities turnId rest o.wallet o.usage
      ({ f with config := o.config, state := o.state } :: tail.1,
        tail.2.1, tail.2.2.1, tail.2.2.2 + 1)

/-- `processActorVenturesFromBastionMessage(message)` (`engine.js` lines
1881-1972): the guard chain (GM, setting, roll filter, in-session dedup,
persisted processed-marker, coordinator election, bastion data, actor type,
actor-turn dedup), then the facility loop, the wallet commit, the duration
ledger commit and the processed-marker write. -/
def processActorVenturesFromBastionMessage (env : GameEnv) (w : World) : World :=
  if !currentUserIsGM env then w
  else if !env.integrateBastion then w
  else if w.message.isRoll || decide (w.message.rollsCount > 0) then w
  else
    let messageKey := w.message.uuid
    if messageKey = "" then w
    else if w.session.processedBastionMessages.contains messageKey then w
    else if w.message.processedFlag then
      { w with
          session :=
            { w.session with
                processedBastionMessages := messageKey :: w.session.processedBastionMessages } }
    else if primaryGmId env ≠ some env.currentUserId then w
    else
      match w.message.bastion with
      | none => w
      | some bastion =>
        if !bastion.hasOrders then w
        else if !w.actorFound || !w.actor.isCharacter then w
        else
          let dedupKey := buildBastionDedupKey bastion
          let actorTurnKey := w.actor.uuid ++ "::" ++ dedupKey
          if dedupKey ≠ "" ∧ w.session.processedActorTurnKeys.contains actorTurnKey then w
          else
            let session1 :=
              if dedupKey ≠ "" then
                { w.session with
                    processedActorTurnKeys := actorTurnKey :: w.session.processedActorTurnKeys }
              else w.session
            let session2 :=
              { session1 with
                  processedBastionMessages := messageKey :: session1.processedBastionMessages }
            let wallet0 := { w.actor.currency with dirty := false }
            let usage0 := queueModifierDurationUsage [] w.actor.bastionDurationTracked
            let folded := processFacilities w.message.uuid w.actor.facilities wallet0 usage0
            let wallet1 := folded.2.1
            let currency1 := if wallet1.dirty then wallet1 else w.actor.currency
            let effects1 := decrementModifierDurations w.actor.effectDurations folded.2.2.1
            { session := session2
              message := { w.message with processedFlag := true }
              actor :=
                { w.actor with
                    facilities := folded.1
                    currency := currency1
                    effectDurations := effects1 }
              actorFound := w.actorFound }

/-! ## Specification-side formulations (used to state claims in the spec's
own vocabulary and compare them with the source translation) -/

/-- Claim wording for the profit-die floor: raised to the minimum die if
below it. -/
def raiseToMin (die : Die) : Option Die → Die
  | none => die
  | some m => if dieIndex die < dieIndex m then m else die

/-- Claim wording for the loss-die cap: lowered to the maximum die if above
it. -/
def lowerToMax (die : Die) : Option Die → Die
  | none => die
  | some m => if dieIndex die > dieIndex m then m else die

/-- Claim wording for the greedy wallet: the given copper value distributed
into largest denominations first. -/
def greedyWallet (rem : Nat) : Wallet :=
  { pp := rem / 1000
    gp := rem % 1000 / 100
    ep := rem % 1000 % 100 / 50
    sp := rem % 1000 % 100 % 50 / 10
    cp := rem % 1000 % 100 % 50 % 10
    dirty := true }

/-- Claim C10 exactly as stated: an insufficient wallet yields a failed,
untouched spend; otherwise the spend succeeds, removes exactly the converted
amount, and leaves the remaining funds greedily redistributed. -/
def spendClaimStated (w : Wallet) (g : Int) : Prop :=
  if (getWalletTotalCp w : Int) < gpToCp g then spendFromInventory w g = (false, w)
  else
    (spendFromInventory w g).1 = true ∧
    ((getWalletTotalCp (spendFromInventory w g).2 : Int) = getWalletTotalCp w - gpToCp g) ∧
    (spendFromInventory w g).2 = greedyWallet (getWalletTotalCp w - (gpToCp g).toNat)

/-- Claim wording for the tightest per-turn group limit declared among all
boons of a group (`none` when no boon of the group declares one). -/
def tightestGroupLimit : List Boon → String → Option Int
  | [], _ => none
  | boon :: rest, gk =>
    let tailTightest := tightestGroupLimit rest gk
    match (if buildBoonGroupKey boon = gk then reparsePerTurnLimit boon.groupPerTurnLimit else none) with
    | none => tailTightest
    | some l =>
      match tailTightest with
      | none => some l
      | some t => some (min l t)

/-- Claim wording for the group's purchased-this-turn sum, starting the
positional index at `i`. -/
def groupPurchasedSumFrom (state : VentureState) : Nat → List Boon → String → Int
  | _, [], _ => 0
  | i, boon :: rest, gk =>
    (if buildBoonGroupKey boon = gk then getBoonPurchasesThisTurn state i (buildBoonKey boon) else 0)
      + groupPurchasedSumFrom state (i + 1) rest gk

/-- The group's purchased-this-turn sum over all boons of the venture. -/
def groupPurchasedSum (state : VentureState) (boons : List Boon) (gk : String) : Int :=
  groupPurchasedSumFrom state 0 boons gk

/-- A fresh turn environment of one future turn-trigger event for a single
venture (claim C5's quantification over subsequent turns). -/
structure VentureTurnStep where
  facility : FacilityMeta
  wallet : Wallet
  input : TurnInput
  usage : UsageMap
deriving DecidableEq, Repr

/-- Fold a venture's config/state through a sequence of turn-trigger events;
a skipped turn (`none`) keeps the stored config/state, a processed turn
persists the returned ones. -/
def runVentureTurns : VentureConfig × VentureState → List VentureTurnStep → VentureConfig × VentureState
  | cs, [] => cs
  | (c, s), step :: rest =>
    match processSingleVenture step.facility c s step.wallet step.input step.usage with
    | none => runVentureTurns (c, s) rest
    | some o => runVentureTurns (o.config, o.state) rest

/-! ## Concrete fixtures for witnesses and counterexamples -/

/-- A plain venture config: `d6` profit and loss dice, threshold 3,
100 gp per point, every optional behavior off. -/
def exampleConfig : VentureConfig :=
  { enabled := true, profitDie := .d6, lossDie := .d6, lossModifier := 0, gpPerPoint := 100
    autoCoverLoss := false, autoUseTreasuryLoss := false, naturalOneDegradesProfitDie := false
    successThreshold := 3, boons := [] }

/-- A venture two successes into its streak at `d6`. -/
def exampleState : VentureState :=
  { currentProfitDie := .d6, streak := 2, treasury := 0, failed := false, lastTurnNet := 0
    turnId := "", boonPurchasesTurnId := "", boonPurchases := [] }

/-- A purse holding 500 gp. -/
def exampleWallet : Wallet := { pp := 0, gp := 500, ep := 0, sp := 0, cp := 0, dirty := false }

/-- An enabled special facility. -/
def exampleFacility : FacilityMeta := { typeIsSpecial := true, systemDisabled := false }

/-- A turn with profit roll 5, loss roll 2, no modifiers, declined prompts. -/
def exampleInput : TurnInput :=
  { turnId := "t1", agg := emptyAggregate, growConsumables := [], trackedEffects := []
    profitRollTotal := 5, lossRollTotal := 2, prompt := .localDecision .decline }

/-- A placeholder turn output (used only as the `getD` default when reading
a concrete turn output that is known to exist). -/
def defaultTurnOutput : TurnOutput :=
  { config := exampleConfig
    state := exampleState
    wallet := exampleWallet
    usage := []
    result :=
      { previousProfitDie := .d6, profitDieRolled := .d6, lossDieRolled := .d6
        nextProfitDie := .d6, effectiveSuccessThreshold := 1, rawProfitRollTotal := 0
        profitRollBonus := 0, profitRollTotal := 0, lossRollTotal := 0, gpPerPoint := 0
        income := 0, outgoings := 0, net := 0, deficit := 0, coveredDeficit := false
        autoCovered := false, manualCovered := false, coveredByInventory := false
        treasuryCovered := 0, characterCovered := 0, uncoveredDeficit := 0
        hasCoverageSources := false, promptDeclined := false, promptTimedOut := false
        insufficientFunds := false, streak := 0, treasury := 0, grew := false
        degraded := false, naturalOneDegraded := false, failed := false, boons := [] } }

/-- The concrete turn output at given inputs (meaningful whenever the turn
is actually processed). -/
def turnOutputAt (f : FacilityMeta) (c : VentureConfig) (s : VentureState) (w : Wallet)
    (i : TurnInput) (u : UsageMap) : TurnOutput :=
  (processSingleVenture f c s w i u).getD defaultTurnOutput

/-- A grouped example boon: cost 100, per-turn limit 1, group `Staff` with
group limit 2. -/
def exampleBoon : Boon :=
  { name := "Hirelings", cost := 100, description := "Staff for hire", rewardUuid := ""
    perTurnLimit := some 1, purchaseWhen := .default, group := "Staff", groupPerTurnLimit := some 2 }

/-- A placeholder boon row (used only as the `getD` default when reading a
concrete evaluated boon that is known to exist). -/
def defaultBoonEval : BoonEval :=
  { index := 0, cost := 0, boonKey := "", groupKey := "", groupPerTurnLimit := none
    purchasedInGroupThisTurn := 0, perTurnLimit := none, purchaseWhen := .default
    purchaseWhenAllowed := true, purchasedThisTurn := 0, affordable := false
    purchasable := false }

/-- The concrete evaluated boon row at a given index of a turn output. -/
def boonEvalAt (o : TurnOutput) (i : Nat) : BoonEval :=
  (o.result.boons.get? i).getD defaultBoonEval

/-- The example venture configuration offering the example boon. -/
def exampleBoonConfig : VentureConfig := { exampleConfig with boons := [exampleBoon] }

/-- A session with a single active GM, bastion integration on. -/
def exampleEnv : GameEnv :=
  { currentUserId := "gm1"
    users := [{ id := "gm1", active := true, isGM := true }]
    integrateBastion := true }

/-- A bastion-turn flag carrying a stable turn id and an orders array. -/
def exampleBastion : BastionData :=
  { turnId := some "T1", turnInnerId := none, dataId := none, hasOrders := true }

/-- A fresh unprocessed bastion-turn chat message. -/
def exampleMessage : BastionMessage :=
  { uuid := "m1", isRoll := false, rollsCount := 0, processedFlag := false
    bastion := some exampleBastion }

/-- The owning character with one enabled venture facility. -/
def exampleActorDoc : ActorDoc :=
  { uuid := "Actor.abc", isCharacter := true
    facilities := [{ meta := exampleFacility, config := exampleConfig, state := exampleState
                     turnEnv := exampleInput }]
    currency := exampleWallet, effectDurations := [], bastionDurationTracked := [] }

/-- A fresh world: empty dedup sets, unprocessed message, actor resolved. -/
def exampleWorld : World :=
  { session := { processedBastionMessages := [], processedActorTurnKeys := [] }
    message := exampleMessage
    actor := exampleActorDoc
    actorFound := true }

/-- A world whose session already recorded the actor-turn key of the example
bastion turn (a duplicate turn id arriving through a different message). -/
def exampleDupWorld : World :=
  { exampleWorld with
      message := { exampleMessage with uuid := "m2" }
      session := { processedBastionMessages := []
                   processedActorTurnKeys := ["Actor.abc::turn:T1"] } }

/-- A world whose message already carries the persisted processed-marker
(the restart scenario). -/
def exampleFlaggedWorld : World :=
  { exampleWorld with message := { exampleMessage with processedFlag := true } }

/-- Claim C1 exactly as stated, about the output of one processed turn: on
positive net where the natural-one penalty does not apply, the treasury
grows by the net and the streak increments; when the incremented streak
reaches the effective threshold, the profit die advances one ladder
position, the streak resets, and the turn is marked a growth event. -/
def growthClaimStated (config : VentureConfig) (state : VentureState) (input : TurnInput)
    (o : TurnOutput) : Prop :=
  0 < o.result.net →
  (config.naturalOneDegradesProfitDie && decide (input.profitRollTotal = 1)) = false →
  o.state.treasury = state.treasury + o.result.net ∧
  (state.streak + 1 ≥ o.result.effectiveSuccessThreshold →
    dieIndex o.state.currentProfitDie = dieIndex state.currentProfitDie + 1 ∧
    o.state.streak = 0 ∧
    o.result.grew = true) ∧
  (¬ state.streak + 1 ≥ o.result.effectiveSuccessThreshold →
    o.state.streak = state.streak + 1)

/-- Claim C4 exactly as stated, about the output of one processed turn: a
turn whose net is exactly zero leaves streak, current profit die and
treasury unchanged. -/
def breakEvenClaimStated (state : VentureState) (o : TurnOutput) : Prop :=
  o.result.net = 0 →
  o.state.streak = state.streak ∧
  o.state.currentProfitDie = state.currentProfitDie ∧
  o.state.treasury = state.treasury

/-! # Supporting lemmas -/

theorem alistGet_alistSet_self {α : Type} (m : List (String × α)) (k : String) (v : α) :
    alistGet (alistSet m k v) k = some v := by
  induction m with
  | nil => simp [alistGet, alistSet]
  | cons e rest ih =>
    by_cases h : e.1 = k
    · simp [alistGet, alistSet, h]
    · simp only [alistSet, if_neg h]
      simpa [alistGet, List.find?_cons, h] using ih

theorem alistGet_alistSet_ne {α : Type} (m : List (String × α)) (k k' : String) (v : α)
    (h : k' ≠ k) : alistGet (alistSet m k v) k' = alistGet m k' := by
  induction m with
  | nil => simp [alistGet, alistSet, Ne.symm h]
  | cons e rest ih =>
    by_cases he : e.1 = k
    · subst he
      simp [alistGet, alistSet, List.find?_cons, Ne.symm h]
    · simp only [alistSet, if_neg he]
      by_cases he' : e.1 = k'
      · simp [alistGet, List.find?_cons, he']
      · simpa [alistGet, List.find?_cons, he'] using ih

theorem applyMinimumDie_eq_raiseToMin (d : Die) (m : Option Die) :
    applyMinimumDie d m = raiseToMin d m := by
  cases m with
  | none => rfl
  | some x => simp [applyMinimumDie, raiseToMin, maxDie, gt_iff_lt]

theorem applyMaximumDie_eq_lowerToMax (d : Die) (m : Option Die) :
    applyMaximumDie d m = lowerToMax d m := by
  cases m with
  | none => rfl
  | some x => simp [applyMaximumDie, lowerToMax, minDie, gt_iff_lt]

theorem dieIndex_shiftUp_iff (d : Die) :
    (dieIndex (shiftDie d 1) > dieIndex d) ↔ d ≠ Die.d12 := by
  cases d <;> simp <;> decide

theorem greedyWallet_total (r : Nat) : getWalletTotalCp (greedyWallet r) = r := by
  simp only [greedyWallet, getWalletTotalCp]
  omega

/-! # Claim C10 -/

/-- Claim C10 (amended): for a positive gold amount, `spendFromInventory`
fails and leaves the wallet untouched when the total value is short,
otherwise succeeds, removes exactly the converted copper value and
redistributes the remainder greedily into largest denominations first; a
non-positive amount succeeds without touching the wallet at all (no
redistribution). -/
theorem spendFromInventory_spec (w : Wallet) (g : Int) :
    ((getWalletTotalCp w : Int) < gpToCp g → spendFromInventory w g = (false, w)) ∧
    (0 < g → gpToCp g ≤ (getWalletTotalCp w : Int) →
      (spendFromInventory w g).1 = true ∧
      (getWalletTotalCp (spendFromInventory w g).2 : Int) = (getWalletTotalCp w : Int) - gpToCp g ∧
      (spendFromInventory w g).2 = greedyWallet (getWalletTotalCp w - (gpToCp g).toNat)) ∧
    (g ≤ 0 → spendFromInventory w g = (true, w)) := by
  refine ⟨?_, ?_, ?_⟩
  · intro h
    have hpos : ¬ gpToCp g ≤ 0 := by
      have : (0 : Int) ≤ (getWalletTotalCp w : Int) := Int.ofNat_nonneg _
      omega
    simp only [spendFromInventory, if_neg hpos, if_pos h]
  · intro hg hle
    have hpos : ¬ gpToCp g ≤ 0 := by
      simp only [gpToCp]
      omega
    have hnl : ¬ (getWalletTotalCp w : Int) < gpToCp g := by omega
    have hreq0 : (0 : Int) ≤ gpToCp g := by simp only [gpToCp]; omega
    have hw : (spendFromInventory w g).2
        = greedyWallet (getWalletTotalCp w - (gpToCp g).toNat) := by
      simp only [spendFromInventory, if_neg hpos, if_neg hnl]
      have htn : ((getWalletTotalCp w : Int) - gpToCp g).toNat
          = getWalletTotalCp w - (gpToCp g).toNat := by omega
      rw [htn]
      simp [greedyWallet]
    refine ⟨?_, ?_, hw⟩
    · simp only [spendFromInventory, if_neg hpos, if_neg hnl]
    · rw [hw, greedyWallet_total]
      omega
  · intro hg
    have h0 : gpToCp g ≤ 0 := by
      simp only [gpToCp]
      have : g * 100 ≤ 0 := by
        have := Int.mul_nonpos_of_nonpos_of_nonneg hg (by norm_num : (0:Int) ≤ 100)
        omega
      omega
    simp only [spendFromInventory, if_pos h0]

/-- Witness for C10's amended theorem: spending 3 gp from a 5 gp purse
succeeds, removes 300 cp, and leaves 2 gp greedily redistributed. -/
theorem spendFromInventory_spec_witness :
    (spendFromInventory { pp := 0, gp := 5, ep := 0, sp := 0, cp := 0, dirty := false } 3).1 = true ∧
    (getWalletTotalCp
        (spendFromInventory { pp := 0, gp := 5, ep := 0, sp := 0, cp := 0, dirty := false } 3).2 : Int)
      = (getWalletTotalCp { pp := 0, gp := 5, ep := 0, sp := 0, cp := 0, dirty := false } : Int) - gpToCp 3 ∧
    (spendFromInventory { pp := 0, gp := 5, ep := 0, sp := 0, cp := 0, dirty := false } 3).2
      = greedyWallet
          (getWalletTotalCp { pp := 0, gp := 5, ep := 0, sp := 0, cp := 0, dirty := false }
            - (gpToCp 3).toNat) :=
  (spendFromInventory_spec _ 3).2.1 (by decide) (by decide)

/-- Counterexample to C10 as stated: a zero-amount spend returns early
without the greedy redistribution the claim promises for every sufficient
wallet (150 loose cp stay 150 cp instead of becoming 1 gp 5 sp). -/
theorem spendFromInventory_claim_counterexample :
    ¬ spendClaimStated { pp := 0, gp := 0, ep := 0, sp := 0, cp := 150, dirty := false } 0 := by
  unfold spendClaimStated
  decide

/-! # Turn-resolver structure lemmas -/

theorem adoptTurnId_currentProfitDie (s : VentureState) (t : String) :
    (adoptTurnId s t).currentProfitDie = s.currentProfitDie := by
  unfold adoptTurnId
  split <;> try rfl
  split <;> rfl

theorem adoptTurnId_streak (s : VentureState) (t : String) :
    (adoptTurnId s t).streak = s.streak := by
  unfold adoptTurnId
  split <;> try rfl
  split <;> rfl

theorem adoptTurnId_treasury (s : VentureState) (t : String) :
    (adoptTurnId s t).treasury = s.treasury := by
  unfold adoptTurnId
  split <;> try rfl
  split <;> rfl

theorem adoptTurnId_failed (s : VentureState) (t : String) :
    (adoptTurnId s t).failed = s.failed := by
  unfold adoptTurnId
  split <;> try rfl
  split <;> rfl

theorem settleNet_pos_penalty (c : VentureConfig) (s : VentureState) (w : Wallet)
    (u : UsageMap) (agg : Aggregate) (g : List String) (p : PromptOutcome)
    (net thr : Int) (hpos : 0 < net) :
    settleNet c s w u agg g p net true thr =
      { config := c
        state := { s with treasury := s.treasury + net, streak := 0 }
        wallet := w
        usage := u
        deficit := 0
        coveredDeficit := false
        autoCovered := false
        manualCovered := false
        coveredByInventory := false
        treasuryCovered := 0
        characterCovered := 0
        uncoveredDeficit := 0
        promptDeclined := false
        promptTimedOut := false
        insufficientFunds := false
        hasCoverageSources := false
        grew := false
        degraded := false
        failed := false } := by
  simp [settleNet, hpos]

theorem settleNet_growth (c : VentureConfig) (s : VentureState) (w : Wallet)
    (u : UsageMap) (agg : Aggregate) (g : List String) (p : PromptOutcome)
    (net thr : Int) (hpos : 0 < net) (hthr : s.streak + 1 ≥ thr) :
    settleNet c s w u agg g p net false thr =
      { config := c
        state :=
          { s with
              treasury := s.treasury + net
              currentProfitDie := shiftDie s.currentProfitDie 1
              streak := 0 }
        wallet := w
        usage :=
          if dieIndex (shiftDie s.currentProfitDie 1) > dieIndex s.currentProfitDie then
            markModifiersForDeletion u g
          else u
        deficit := 0
        coveredDeficit := false
        autoCovered := false
        manualCovered := false
        coveredByInventory := false
        treasuryCovered := 0
        characterCovered := 0
        uncoveredDeficit := 0
        promptDeclined := false
        promptTimedOut := false
        insufficientFunds := false
        hasCoverageSources := false
        grew := decide (dieIndex (shiftDie s.currentProfitDie 1) > dieIndex s.currentProfitDie)
        degraded := false
        failed := false } := by
  simp only [settleNet, if_pos hpos, Bool.not_false, if_pos trivial]
  simp [hthr]

theorem settleNet_noGrowth (c : VentureConfig) (s : VentureState) (w : Wallet)
    (u : UsageMap) (agg : Aggregate) (g : List String) (p : PromptOutcome)
    (net thr : Int) (hpos : 0 < net) (hthr : ¬ s.streak + 1 ≥ thr) :
    settleNet c s w u agg g p net false thr =
      { config := c
        state := { s with treasury := s.treasury + net, streak := s.streak + 1 }
        wallet := w
        usage := u
        deficit := 0
        coveredDeficit := false
        autoCovered := false
        manualCovered := false
        coveredByInventory := false
        treasuryCovered := 0
        characterCovered := 0
        uncoveredDeficit := 0
        promptDeclined := false
        promptTimedOut := false
        insufficientFunds := false
        hasCoverageSources := false
        grew := false
        degraded := false
        failed := false } := by
  simp [settleNet, hpos, hthr]

theorem settleNet_zero (c : VentureConfig) (s : VentureState) (w : Wallet)
    (u : UsageMap) (agg : Aggregate) (g : List String) (p : PromptOutcome)
    (pen : Bool) (thr : Int) :
    settleNet c s w u agg g p 0 pen thr =
      { config := c
        state := s
        wallet := w
        usage := u
        deficit := 0
        coveredDeficit := false
        autoCovered := false
        manualCovered := false
        coveredByInventory := false
        treasuryCovered := 0
        characterCovered := 0
        uncoveredDeficit := 0
        promptDeclined := false
        promptTimedOut := false
        insufficientFunds := false
        hasCoverageSources := false
        grew := false
        degraded := false
        failed := false } := by
  simp [settleNet]

theorem processSingleVenture_elig (f : FacilityMeta) (c : VentureConfig) (s : VentureState)
    (w : Wallet) (i : TurnInput) (u : UsageMap) (o : TurnOutput)
    (h : processSingleVenture f c s w i u = some o) :
    isFacilityEligibleForVenture f c s = true := by
  by_contra hne
  rw [Bool.not_eq_true] at hne
  simp [processSingleVenture, hne] at h

/-! # Claim C2 -/

/-- Claim C2: on every processed turn, the profit die actually rolled is the
stored current die shifted by the aggregate step, replaced by the aggregate
override when present, then raised to the aggregate minimum-profit-die; the
loss die rolled is the configured base loss die shifted by the configured
loss modifier plus the aggregate step, replaced by the aggregate override
when present, then lowered to the aggregate maximum-loss-die. -/
theorem effective_dice_match_spec (f : FacilityMeta) (c : VentureConfig) (s : VentureState)
    (w : Wallet) (i : TurnInput) (u : UsageMap) (o : TurnOutput)
    (h : processSingleVenture f c s w i u = some o) :
    o.result.profitDieRolled =
      raiseToMin ((i.agg.profitDieOverride).getD (shiftDie s.currentProfitDie i.agg.profitDieStep))
        i.agg.minProfitDie ∧
    o.result.lossDieRolled =
      lowerToMax ((i.agg.lossDieOverride).getD (shiftDie c.lossDie (c.lossModifier + i.agg.lossDieStep)))
        i.agg.maxLossDie := by
  have helig := processSingleVenture_elig f c s w i u o h
  simp only [processSingleVenture, helig, Bool.not_true, Bool.false_eq_true, if_false,
    Option.some.injEq] at h
  subst h
  simp only [adoptTurnId_currentProfitDie]
  exact ⟨applyMinimumDie_eq_raiseToMin _ _, applyMaximumDie_eq_lowerToMax _ _⟩

/-- Witness for C2 at the spec's worked example (no modifiers active). -/
theorem effective_dice_match_spec_witness :
    (turnOutputAt exampleFacility exampleConfig exampleState exampleWallet
        exampleInput []).result.profitDieRolled =
      raiseToMin ((exampleInput.agg.profitDieOverride).getD
          (shiftDie exampleState.currentProfitDie exampleInput.agg.profitDieStep))
        exampleInput.agg.minProfitDie ∧
    (turnOutputAt exampleFacility exampleConfig exampleState exampleWallet
        exampleInput []).result.lossDieRolled =
      lowerToMax ((exampleInput.agg.lossDieOverride).getD
          (shiftDie exampleConfig.lossDie
            (exampleConfig.lossModifier + exampleInput.agg.lossDieStep)))
        exampleInput.agg.maxLossDie :=
  effective_dice_match_spec exampleFacility exampleConfig exampleState exampleWallet
    exampleInput [] _ (by rfl)

/-! # Claim C3 -/

/-- Claim C3: when the natural-one-degrades option is on and the raw profit
roll is exactly 1, a positive-net turn still banks the net into the
treasury, but is no growth turn: the streak resets to 0 (never increments),
and the current profit die shifts one step down, raised back to the
aggregate minimum-profit-die. -/
theorem natural_one_turn (f : FacilityMeta) (c : VentureConfig) (s : VentureState)
    (w : Wallet) (i : TurnInput) (u : UsageMap) (o : TurnOutput)
    (h : processSingleVenture f c s w i u = some o)
    (hnat : c.naturalOneDegradesProfitDie = true)
    (hroll : i.profitRollTotal = 1)
    (hpos : 0 < o.result.net) :
    o.state.treasury = s.treasury + o.result.net ∧
    o.state.streak = 0 ∧
    o.result.grew = false ∧
    o.state.currentProfitDie =
      raiseToMin (shiftDie s.currentProfitDie (-1)) i.agg.minProfitDie := by
  have helig := processSingleVenture_elig f c s w i u o h
  simp only [processSingleVenture, helig, Bool.not_true, Bool.false_eq_true, if_false,
    Option.some.injEq] at h
  subst h
  simp only [hnat, hroll] at hpos ⊢
  have hpen : (true && decide True) = true := by decide
  rw [hpen]
  rw [settleNet_pos_penalty _ _ _ _ _ _ _ _ _ hpos]
  simp [adoptTurnId_treasury, adoptTurnId_streak, adoptTurnId_currentProfitDie,
    applyMinimumDie_eq_raiseToMin]

/-- Witness for C3: raw roll 1 with a +5 aggregate bonus at 100 gp per point
nets +400, yet the `d6` degrades to `d4` and the streak resets. -/
theorem natural_one_turn_witness :
    (turnOutputAt exampleFacility { exampleConfig with naturalOneDegradesProfitDie := true }
          exampleState exampleWallet
          { exampleInput with
              profitRollTotal := 1
              agg := { emptyAggregate with profitRollBonus := 5 } } []).state.treasury
        = exampleState.treasury
          + (turnOutputAt exampleFacility { exampleConfig with naturalOneDegradesProfitDie := true }
              exampleState exampleWallet
              { exampleInput with
                  profitRollTotal := 1
                  agg := { emptyAggregate with profitRollBonus := 5 } } []).result.net ∧
    (turnOutputAt exampleFacility { exampleConfig with naturalOneDegradesProfitDie := true }
        exampleState exampleWallet
        { exampleInput with
            profitRollTotal := 1
            agg := { emptyAggregate with profitRollBonus := 5 } } []).state.streak = 0 ∧
    (turnOutputAt exampleFacility { exampleConfig with naturalOneDegradesProfitDie := true }
        exampleState exampleWallet
        { exampleInput with
            profitRollTotal := 1
            agg := { emptyAggregate with profitRollBonus := 5 } } []).result.grew = false ∧
    (turnOutputAt exampleFacility { exampleConfig with naturalOneDegradesProfitDie := true }
        exampleState exampleWallet
        { exampleInput with
            profitRollTotal := 1
            agg := { emptyAggregate with profitRollBonus := 5 } } []).state.currentProfitDie
      = raiseToMin (shiftDie exampleState.currentProfitDie (-1))
          ({ emptyAggregate with profitRollBonus := 5 } : Aggregate).minProfitDie :=
  natural_one_turn exampleFacility { exampleConfig with naturalOneDegradesProfitDie := true }
    exampleState exampleWallet
    { exampleInput with
        profitRollTotal := 1
        agg := { emptyAggregate with profitRollBonus := 5 } } [] _
    (by rfl) (by rfl) (by rfl) (by decide)

theorem markModifiersForDeletion_preserves (keys : List String) (u : UsageMap) (k : String)
    (h : ∃ e, alistGet u k = some e ∧ e.forceDelete = true) :
    ∃ e, alistGet (markModifiersForDeletion u keys) k = some e ∧ e.forceDelete = true := by
  induction keys generalizing u with
  | nil => exact h
  | cons k0 rest ih =>
    simp only [markModifiersForDeletion, List.foldl] at ih ⊢
    by_cases hk : k = k0
    · subst hk
      obtain ⟨e, he, hf⟩ := h
      refine ih _ ⟨_, alistGet_alistSet_self _ _ _, rfl⟩
    · refine ih _ ?_
      rw [alistGet_alistSet_ne _ _ _ _ hk]
      exact h

theorem markModifiersForDeletion_forces (keys : List String) (u : UsageMap) (k : String)
    (hk : k ∈ keys) :
    ∃ e, alistGet (markModifiersForDeletion u keys) k = some e ∧ e.forceDelete = true := by
  induction keys generalizing u with
  | nil => cases hk
  | cons k0 rest ih =>
    simp only [markModifiersForDeletion, List.foldl] at ih ⊢
    rcases List.mem_cons.mp hk with h0 | hrest
    · subst h0
      exact markModifiersForDeletion_preserves rest _ k ⟨_, alistGet_alistSet_self _ _ _, rfl⟩
    · exact ih _ hrest

theorem settleNet_pos_noPenalty (c : VentureConfig) (s : VentureState) (w : Wallet)
    (u : UsageMap) (agg : Aggregate) (g : List String) (p : PromptOutcome)
    (net thr : Int) (hpos : 0 < net) :
    settleNet c s w u agg g p net false thr =
      if s.streak + 1 ≥ thr then
        { config := c
          state :=
            { s with
                treasury := s.treasury + net
                currentProfitDie := shiftDie s.currentProfitDie 1
                streak := 0 }
          wallet := w
          usage :=
            if dieIndex (shiftDie s.currentProfitDie 1) > dieIndex s.currentProfitDie then
              markModifiersForDeletion u g
            else u
          deficit := 0
          coveredDeficit := false
          autoCovered := false
          manualCovered := false
          coveredByInventory := false
          treasuryCovered := 0
          characterCovered := 0
          uncoveredDeficit := 0
          promptDeclined := false
          promptTimedOut := false
          insufficientFunds := false
          hasCoverageSources := false
          grew := decide (dieIndex (shiftDie s.currentProfitDie 1) > dieIndex s.currentProfitDie)
          degraded := false
          failed := false }
      else
        { config := c
          state := { s with treasury := s.treasury + net, streak := s.streak + 1 }
          wallet := w
          usage := u
          deficit := 0
          coveredDeficit := false
          autoCovered := false
          manualCovered := false
          coveredByInventory := false
          treasuryCovered := 0
          characterCovered := 0
          uncoveredDeficit := 0
          promptDeclined := false
          promptTimedOut := false
          insufficientFunds := false
          hasCoverageSources := false
          grew := false
          degraded := false
          failed := false } := by
  by_cases hthr : s.streak + 1 ≥ thr
  · rw [settleNet_growth c s w u agg g p net thr hpos hthr, if_pos hthr]
  · rw [settleNet_noGrowth c s w u agg g p net thr hpos hthr, if_neg hthr]

/-! # Claim C1 -/

/-- Claim C1 (amended): on a processed positive-net turn without the
natural-one penalty, the treasury grows by exactly the net; when the
incremented streak reaches the effective threshold the streak resets to 0
and the die takes one clamped upward ladder step, and the turn is marked a
growth event — with grow-consumable modifiers force-consumed — exactly when
the die actually moved (i.e. it was not already at the ladder top `d12`);
below the threshold the streak simply increments. -/
theorem profit_growth_turn (f : FacilityMeta) (c : VentureConfig) (s : VentureState)
    (w : Wallet) (i : TurnInput) (u : UsageMap) (o : TurnOutput)
    (h : processSingleVenture f c s w i u = some o)
    (hpen : (c.naturalOneDegradesProfitDie && decide (i.profitRollTotal = 1)) = false)
    (hpos : 0 < o.result.net) :
    o.state.treasury = s.treasury + o.result.net ∧
    (s.streak + 1 ≥ o.result.effectiveSuccessThreshold →
      o.state.streak = 0 ∧
      o.state.currentProfitDie = shiftDie s.currentProfitDie 1 ∧
      (o.result.grew = true ↔ s.currentProfitDie ≠ Die.d12) ∧
      (o.result.grew = true →
        ∀ k ∈ i.growConsumables,
          ∃ e, alistGet o.usage k = some e ∧ e.forceDelete = true)) ∧
    (¬ s.streak + 1 ≥ o.result.effectiveSuccessThreshold →
      o.state.streak = s.streak + 1 ∧
      o.state.currentProfitDie = s.currentProfitDie ∧
      o.result.grew = false) := by
  have helig := processSingleVenture_elig f c s w i u o h
  simp only [processSingleVenture, helig, Bool.not_true, Bool.false_eq_true, if_false,
    Option.some.injEq] at h
  subst h
  simp only [hpen] at hpos ⊢
  simp only [Bool.false_and, Bool.false_eq_true, if_false]
  rw [settleNet_pos_noPenalty _ _ _ _ _ _ _ _ _ hpos]
  by_cases hthr :
      (adoptTurnId s i.turnId).streak + 1 ≥
        max
          (if i.agg.successThresholdOverride.getD (max c.successThreshold 1) = 0 then
            max c.successThreshold 1
          else i.agg.successThresholdOverride.getD (max c.successThreshold 1))
          1
  · simp only [adoptTurnId_streak] at hthr
    simp only [adoptTurnId_streak, if_pos hthr, adoptTurnId_currentProfitDie,
      adoptTurnId_treasury]
    refine ⟨trivial, fun _ => ⟨trivial, trivial, ?_, ?_⟩, fun hc => absurd hthr hc⟩
    · simp [dieIndex_shiftUp_iff]
    · intro hgrew k hk
      simp only [decide_eq_true_eq, gt_iff_lt] at hgrew
      have hmark := markModifiersForDeletion_forces i.growConsumables
        (queueModifierDurationUsage u i.trackedEffects) k hk
      simpa [hgrew] using hmark
  · simp only [adoptTurnId_streak] at hthr
    simp only [adoptTurnId_streak, if_neg hthr, adoptTurnId_currentProfitDie,
      adoptTurnId_treasury]
    exact ⟨trivial, fun hc => absurd hc hthr, fun _ => ⟨trivial, trivial, trivial⟩⟩

/-- Witness for C1's amended theorem: streak 2 at `d6` with net +300 and
threshold 3 grows to `d8`, resetting the streak; the growth marking holds
because `d6` is not the ladder top. -/
theorem profit_growth_turn_witness :
    (turnOutputAt exampleFacility exampleConfig exampleState exampleWallet
        { exampleInput with growConsumables := ["m1"] } []).state.streak = 0 ∧
    (turnOutputAt exampleFacility exampleConfig exampleState exampleWallet
        { exampleInput with growConsumables := ["m1"] } []).state.currentProfitDie
      = shiftDie exampleState.currentProfitDie 1 ∧
    ((turnOutputAt exampleFacility exampleConfig exampleState exampleWallet
        { exampleInput with growConsumables := ["m1"] } []).result.grew = true ↔
      exampleState.currentProfitDie ≠ Die.d12) := by
  have h := profit_growth_turn exampleFacility exampleConfig exampleState exampleWallet
    { exampleInput with growConsumables := ["m1"] } [] _ (by rfl) (by rfl) (by decide)
  have h2 := h.2.1 (by decide)
  exact ⟨h2.1, h2.2.1, h2.2.2.1⟩

/-- Counterexample to C1 as stated: at `d12` with the streak reaching the
threshold on a +300 turn, the die cannot advance a ladder position and the
turn is not marked a growth event. -/
theorem growth_claim_counterexample :
    processSingleVenture exampleFacility exampleConfig
        { exampleState with currentProfitDie := Die.d12 } exampleWallet exampleInput []
      = some (turnOutputAt exampleFacility exampleConfig
          { exampleState with currentProfitDie := Die.d12 } exampleWallet exampleInput []) ∧
    ¬ growthClaimStated exampleConfig { exampleState with currentProfitDie := Die.d12 }
        exampleInput
        (turnOutputAt exampleFacility exampleConfig
          { exampleState with currentProfitDie := Die.d12 } exampleWallet exampleInput []) := by
  constructor
  · rfl
  · unfold growthClaimStated
    decide

/-! # Claim C4 -/

/-- Claim C4 (amended): a processed turn with net exactly zero leaves
streak, current profit die and treasury unchanged, provided the natural-one
penalty does not apply (a raw roll of 1 lifted to break-even by a profit
bonus still degrades the die and resets the streak). -/
theorem break_even_turn (f : FacilityMeta) (c : VentureConfig) (s : VentureState)
    (w : Wallet) (i : TurnInput) (u : UsageMap) (o : TurnOutput)
    (h : processSingleVenture f c s w i u = some o)
    (hzero : o.result.net = 0)
    (hpen : (c.naturalOneDegradesProfitDie && decide (i.profitRollTotal = 1)) = false) :
    o.state.streak = s.streak ∧
    o.state.currentProfitDie = s.currentProfitDie ∧
    o.state.treasury = s.treasury := by
  have helig := processSingleVenture_elig f c s w i u o h
  simp only [processSingleVenture, helig, Bool.not_true, Bool.false_eq_true, if_false,
    Option.some.injEq] at h
  subst h
  simp only [hpen, Bool.false_and, Bool.false_eq_true, if_false] at hzero ⊢
  rw [hzero, settleNet_zero]
  simp [adoptTurnId_streak, adoptTurnId_currentProfitDie, adoptTurnId_treasury]

/-- Witness for C4's amended theorem: profit roll 2, loss roll 2 at 100 gp
per point is exactly break-even and changes nothing. -/
theorem break_even_turn_witness :
    (turnOutputAt exampleFacility exampleConfig exampleState exampleWallet
        { exampleInput with profitRollTotal := 2 } []).state.streak = exampleState.streak ∧
    (turnOutputAt exampleFacility exampleConfig exampleState exampleWallet
        { exampleInput with profitRollTotal := 2 } []).state.currentProfitDie
      = exampleState.currentProfitDie ∧
    (turnOutputAt exampleFacility exampleConfig exampleState exampleWallet
        { exampleInput with profitRollTotal := 2 } []).state.treasury
      = exampleState.treasury :=
  break_even_turn exampleFacility exampleConfig exampleState exampleWallet
    { exampleInput with profitRollTotal := 2 } [] _ (by rfl) (by decide) (by rfl)

/-- Counterexample to C4 as stated: with the natural-one option enabled, a
raw profit roll of 1 plus a +1 bonus against a loss roll of 2 nets exactly
zero, yet the streak resets from 2 to 0 and the die degrades from `d6` to
`d4`. -/
theorem break_even_claim_counterexample :
    processSingleVenture exampleFacility
        { exampleConfig with naturalOneDegradesProfitDie := true } exampleState exampleWallet
        { exampleInput with
            profitRollTotal := 1
            agg := { emptyAggregate with profitRollBonus := 1 } } []
      = some (turnOutputAt exampleFacility
          { exampleConfig with naturalOneDegradesProfitDie := true } exampleState exampleWallet
          { exampleInput with
              profitRollTotal := 1
              agg := { emptyAggregate with profitRollBonus := 1 } } []) ∧
    ¬ breakEvenClaimStated exampleState
        (turnOutputAt exampleFacility
          { exampleConfig with naturalOneDegradesProfitDie := true } exampleState exampleWallet
          { exampleInput with
              profitRollTotal := 1
              agg := { emptyAggregate with profitRollBonus := 1 } } []) := by
  constructor
  · rfl
  · unfold breakEvenClaimStated
    decide

/-! # Claim C6 -/

theorem maybeCoverDeficitTreasuryOrActor_timeout (t : Int) (w : Wallet) (d : Int) :
    maybeCoverDeficitTreasuryOrActor t w d (.remoteDecision .timeout) =
      (if d ≤ 0 then (emptyCoverageResult, t, w)
      else
        let treasuryAvailable := min t d
        let actorNeededAfterTreasury := max (d - treasuryAvailable) 0
        let canCoverWithTreasuryAndActor :=
          decide (treasuryAvailable > 0) && canCoverFromInventory w actorNeededAfterTreasury
        let canCoverWithActor := canCoverFromInventory w d
        if !canCoverWithTreasuryAndActor && !canCoverWithActor then
          ({ emptyCoverageResult with insufficientFunds := true }, t, w)
        else
          ({ emptyCoverageResult with promptTimedOut := true, promptDeclined := false }, t, w)) :=
  rfl

theorem maybeCoverCharacterDeficit_timeout (w2 : Wallet) (cc : Int) :
    maybeCoverCharacterDeficit w2 cc false (.remoteDecision .timeout) =
      (if cc ≤ 0 then ({ emptyCoverageResult with coveredCharacter := true }, w2)
      else
        let canCoverWithGp := decide ((w2.gp : Int) ≥ cc)
        let canCoverWithActor := canCoverFromInventory w2 cc
        if !canCoverWithGp && !canCoverWithActor then
          ({ emptyCoverageResult with insufficientFunds := true }, w2)
        else
          ({ emptyCoverageResult with promptTimedOut := true, promptDeclined := false }, w2)) :=
  rfl

/-- Claim C6: a remote coverage request that times out resolves with the
choice `decline` (and the timed-out marker), and neither the venture
treasury nor any wallet denomination is touched by the negotiation — in the
fully-manual path and in the character-remainder path alike. -/
theorem coverage_timeout_declines (t : Int) (w : Wallet) (d : Int) (w2 : Wallet) (cc : Int) :
    requestCoverageDecisionFromOwner RemoteDecision.timeout
        = { choice := CoverageChoice.decline, timedOut := true } ∧
    (maybeCoverDeficitTreasuryOrActor t w d (.remoteDecision .timeout)).2.1 = t ∧
    (maybeCoverDeficitTreasuryOrActor t w d (.remoteDecision .timeout)).2.2 = w ∧
    (0 < d →
      (maybeCoverDeficitTreasuryOrActor t w d (.remoteDecision .timeout)).1.insufficientFunds = false →
      (maybeCoverDeficitTreasuryOrActor t w d (.remoteDecision .timeout)).1.promptTimedOut = true ∧
      (maybeCoverDeficitTreasuryOrActor t w d (.remoteDecision .timeout)).1.coveredCharacter = false ∧
      (maybeCoverDeficitTreasuryOrActor t w d (.remoteDecision .timeout)).1.treasuryCovered = 0 ∧
      (maybeCoverDeficitTreasuryOrActor t w d (.remoteDecision .timeout)).1.characterCovered = 0) ∧
    (maybeCoverCharacterDeficit w2 cc false (.remoteDecision .timeout)).2 = w2 ∧
    (0 < cc →
      (maybeCoverCharacterDeficit w2 cc false (.remoteDecision .timeout)).1.insufficientFunds = false →
      (maybeCoverCharacterDeficit w2 cc false (.remoteDecision .timeout)).1.promptTimedOut = true ∧
      (maybeCoverCharacterDeficit w2 cc false (.remoteDecision .timeout)).1.coveredCharacter = false ∧
      (maybeCoverCharacterDeficit w2 cc false (.remoteDecision .timeout)).1.characterCovered = 0) := by
  rw [maybeCoverDeficitTreasuryOrActor_timeout, maybeCoverCharacterDeficit_timeout]
  refine ⟨rfl, ?_, ?_, ?_, ?_, ?_⟩
  · split
    · rfl
    · dsimp only
      split <;> rfl
  · split
    · rfl
    · dsimp only
      split <;> rfl
  · intro hd hins
    rw [if_neg (by omega : ¬ d ≤ 0)] at hins ⊢
    dsimp only at hins ⊢
    revert hins
    split <;> simp [emptyCoverageResult]
  · split
    · rfl
    · dsimp only
      split <;> rfl
  · intro hc hins
    rw [if_neg (by omega : ¬ cc ≤ 0)] at hins ⊢
    dsimp only at hins ⊢
    revert hins
    split <;> simp [emptyCoverageResult]

/-- Witness for C6: deficit 400 against treasury 150 and a 500 gp purse;
the timed-out negotiation declines and spends nothing. -/
theorem coverage_timeout_declines_witness :
    (maybeCoverDeficitTreasuryOrActor 150 exampleWallet 400 (.remoteDecision .timeout)).2.1 = 150 ∧
    (maybeCoverDeficitTreasuryOrActor 150 exampleWallet 400 (.remoteDecision .timeout)).2.2
      = exampleWallet ∧
    (maybeCoverDeficitTreasuryOrActor 150 exampleWallet 400 (.remoteDecision .timeout)).1.promptTimedOut
      = true ∧
    (maybeCoverCharacterDeficit exampleWallet 250 false (.remoteDecision .timeout)).2
      = exampleWallet := by
  have h := coverage_timeout_declines 150 exampleWallet 400 exampleWallet 250
  exact ⟨h.2.1, h.2.2.1, (h.2.2.2.1 (by decide) (by decide)).1, h.2.2.2.2.1⟩

/-! # Claim C5 -/

theorem processSingleVenture_failed_skip (f : FacilityMeta) (c : VentureConfig)
    (s : VentureState) (w : Wallet) (i : TurnInput) (u : UsageMap)
    (h : s.failed = true) :
    processSingleVenture f c s w i u = none := by
  simp [processSingleVenture, isFacilityEligibleForVenture, h]

theorem runVentureTurns_failed (c : VentureConfig) (s : VentureState)
    (h : s.failed = true) (steps : List VentureTurnStep) :
    runVentureTurns (c, s) steps = (c, s) := by
  induction steps with
  | nil => rfl
  | cons st rest ih =>
    simp only [runVentureTurns,
      processSingleVenture_failed_skip st.facility c s st.wallet st.input st.usage h]
    exact ih

theorem applyFailureOrDegrade_uncovered_floor (agg : Aggregate) (c : VentureConfig)
    (st : VentureState) (hdie : st.currentProfitDie = Die.d4) :
    applyFailureOrDegrade agg c st false =
      ({ c with enabled := false }, { st with failed := true }, false, true) := by
  simp [applyFailureOrDegrade, hdie]

theorem settleNet_uncovered_floor (c : VentureConfig) (s : VentureState) (w : Wallet)
    (u : UsageMap) (agg : Aggregate) (g : List String) (p : PromptOutcome)
    (net thr : Int) (pen : Bool) (hneg : net < 0)
    (hdie : s.currentProfitDie = Die.d4)
    (hcov : (settleNet c s w u agg g p net pen thr).coveredDeficit = false) :
    (settleNet c s w u agg g p net pen thr).state.failed = true ∧
    (settleNet c s w u agg g p net pen thr).failed = true ∧
    (settleNet c s w u agg g p net pen thr).config.enabled = false := by
  have h1 : ¬ net > 0 := by omega
  have h2 : ¬ net = 0 := by omega
  simp only [settleNet, if_neg h1, if_neg h2] at hcov ⊢
  by_cases h3 : c.autoUseTreasuryLoss
  · simp only [if_pos h3] at hcov ⊢
    rw [hcov]
    rw [applyFailureOrDegrade_uncovered_floor _ _ _ (by simp [hdie])]
    simp
  · simp only [if_neg h3] at hcov ⊢
    by_cases h4 : c.autoCoverLoss
    · simp only [if_pos h4] at hcov ⊢
      rw [hcov]
      rw [applyFailureOrDegrade_uncovered_floor _ _ _ (by simp [hdie])]
      simp
    · simp only [if_neg h4] at hcov ⊢
      rw [hcov]
      rw [applyFailureOrDegrade_uncovered_floor _ _ _ (by simp [hdie])]
      simp

/-- Claim C5: a turn ending with an uncovered deficit while the profit die
sits at the ladder floor `d4` sets the failed flag, disables the config, and
every subsequent turn-trigger leaves the venture's config and state exactly
as they are (the eligibility gate skips it), for any sequence of future
turns. -/
theorem venture_failure_terminal (f : FacilityMeta) (c : VentureConfig) (s : VentureState)
    (w : Wallet) (i : TurnInput) (u : UsageMap) (o : TurnOutput)
    (h : processSingleVenture f c s w i u = some o)
    (hneg : o.result.net < 0)
    (hcov : o.result.coveredDeficit = false)
    (hdie : s.currentProfitDie = Die.d4) :
    o.state.failed = true ∧
    o.config.enabled = false ∧
    ∀ future : List VentureTurnStep,
      runVentureTurns (o.config, o.state) future = (o.config, o.state) := by
  have helig := processSingleVenture_elig f c s w i u o h
  simp only [processSingleVenture, helig, Bool.not_true, Bool.false_eq_true, if_false,
    Option.some.injEq] at h
  subst h
  simp only [] at hneg hcov ⊢
  have hsettle := settleNet_uncovered_floor _ _ _ _ _ _ _ _ _ _ hneg
    (by simp [adoptTurnId_currentProfitDie, hdie]) hcov
  obtain ⟨hsf, hff, hce⟩ := hsettle
  simp only [hff, Bool.not_true, Bool.and_false, Bool.false_and, Bool.false_eq_true, if_false]
  refine ⟨hsf, hce, ?_⟩
  intro future
  exact runVentureTurns_failed _ _ hsf future

/-- Witness for C5: a `d4` venture losing 400 gp with a declined prompt
fails terminally; a further identical turn-trigger leaves it untouched. -/
theorem venture_failure_terminal_witness :
    (turnOutputAt exampleFacility exampleConfig
        { exampleState with currentProfitDie := Die.d4, treasury := 50 } exampleWallet
        { exampleInput with profitRollTotal := 1, lossRollTotal := 5 } []).state.failed = true ∧
    (turnOutputAt exampleFacility exampleConfig
        { exampleState with currentProfitDie := Die.d4, treasury := 50 } exampleWallet
        { exampleInput with profitRollTotal := 1, lossRollTotal := 5 } []).config.enabled = false ∧
    runVentureTurns
        ((turnOutputAt exampleFacility exampleConfig
            { exampleState with currentProfitDie := Die.d4, treasury := 50 } exampleWallet
            { exampleInput with profitRollTotal := 1, lossRollTotal := 5 } []).config,
          (turnOutputAt exampleFacility exampleConfig
            { exampleState with currentProfitDie := Die.d4, treasury := 50 } exampleWallet
            { exampleInput with profitRollTotal := 1, lossRollTotal := 5 } []).state)
        [{ facility := exampleFacility, wallet := exampleWallet, input := exampleInput, usage := [] }]
      = ((turnOutputAt exampleFacility exampleConfig
            { exampleState with currentProfitDie := Die.d4, treasury := 50 } exampleWallet
            { exampleInput with profitRollTotal := 1, lossRollTotal := 5 } []).config,
          (turnOutputAt exampleFacility exampleConfig
            { exampleState with currentProfitDie := Die.d4, treasury := 50 } exampleWallet
            { exampleInput with profitRollTotal := 1, lossRollTotal := 5 } []).state) := by
  have h := venture_failure_terminal exampleFacility exampleConfig
    { exampleState with currentProfitDie := Die.d4, treasury := 50 } exampleWallet
    { exampleInput with profitRollTotal := 1, lossRollTotal := 5 } [] _
    (by rfl) (by decide) (by decide) (by rfl)
  exact ⟨h.1, h.2.1,
    h.2.2 [{ facility := exampleFacility, wallet := exampleWallet, input := exampleInput, usage := [] }]⟩

/-! # Claim C7 -/

theorem maybeCover_treasury_nonneg (t : Int) (w : Wallet) (d : Int) (p : PromptOutcome)
    (ht : 0 ≤ t) : 0 ≤ (maybeCoverDeficitTreasuryOrActor t w d p).2.1 := by
  unfold maybeCoverDeficitTreasuryOrActor
  dsimp only
  repeat' split
  all_goals dsimp only
  all_goals omega

theorem applyFailureOrDegrade_treasury (agg : Aggregate) (c : VentureConfig)
    (st : VentureState) (cov : Bool) :
    (applyFailureOrDegrade agg c st cov).2.1.treasury = st.treasury := by
  unfold applyFailureOrDegrade
  repeat' split
  all_goals rfl

theorem settleNet_treasury_nonneg (c : VentureConfig) (s : VentureState) (w : Wallet)
    (u : UsageMap) (agg : Aggregate) (g : List String) (p : PromptOutcome)
    (net thr : Int) (pen : Bool) (ht : 0 ≤ s.treasury) :
    0 ≤ (settleNet c s w u agg g p net pen thr).state.treasury := by
  have hm := maybeCover_treasury_nonneg s.treasury w |net| p ht
  unfold settleNet
  dsimp only
  repeat' split
  all_goals try simp only [applyFailureOrDegrade_treasury]
  all_goals omega

theorem process_treasury_nonneg (f : FacilityMeta) (c : VentureConfig) (s : VentureState)
    (w : Wallet) (i : TurnInput) (u : UsageMap) (o : TurnOutput)
    (h : processSingleVenture f c s w i u = some o) (ht : 0 ≤ s.treasury) :
    0 ≤ o.state.treasury := by
  have helig := processSingleVenture_elig f c s w i u o h
  simp only [processSingleVenture, helig, Bool.not_true, Bool.false_eq_true, if_false,
    Option.some.injEq] at h
  subst h
  dsimp only
  rw [apply_ite (fun x : VentureState × Bool × Bool × Bool => x.1.treasury)]
  dsimp only
  rw [ite_self]
  exact settleNet_treasury_nonneg _ _ _ _ _ _ _ _ _ _
    (by simpa [adoptTurnId_treasury] using ht)

theorem applyBoonPurchase_treasury (st : VentureState) (b : Boon) (idx : Nat) (net : Int)
    (s1 : VentureState) (h : applyBoonPurchase st b idx net = some s1) :
    s1.treasury = st.treasury - b.cost ∧ 0 ≤ s1.treasury := by
  by_cases hp : (withBoonAvailability b st idx net).purchasable = true
  · have haff : st.treasury ≥ b.cost := by
      have hp2 := hp
      simp only [withBoonAvailability, Bool.and_eq_true, decide_eq_true_eq] at hp2
      exact hp2.1.1.1
    simp only [applyBoonPurchase, hp, Bool.not_true, Bool.false_eq_true, if_false,
      Option.some.injEq] at h
    subst h
    refine ⟨rfl, ?_⟩
    dsimp only
    omega
  · rw [Bool.not_eq_true] at hp
    simp [applyBoonPurchase, hp] at h

/-- Claim C7: the treasury stays a non-negative integer across state
sanitization, turn resolution, deficit coverage and boon purchase; wallet
denominations are non-negative after every turn; a gold-per-point rate of 0
yields zero income, zero outgo and zero net for any rolls. -/
theorem nonnegative_money_invariants :
    (∀ (raw : RawState) (c : VentureConfig),
      0 ≤ (sanitizeState raw c).treasury ∧ 0 ≤ (sanitizeState raw c).streak) ∧
    (∀ (f : FacilityMeta) (c : VentureConfig) (s : VentureState) (w : Wallet)
        (i : TurnInput) (u : UsageMap) (o : TurnOutput),
      processSingleVenture f c s w i u = some o → 0 ≤ s.treasury →
      0 ≤ o.state.treasury ∧
      0 ≤ (o.wallet.pp : Int) ∧ 0 ≤ (o.wallet.gp : Int) ∧ 0 ≤ (o.wallet.ep : Int) ∧
      0 ≤ (o.wallet.sp : Int) ∧ 0 ≤ (o.wallet.cp : Int)) ∧
    (∀ (st : VentureState) (b : Boon) (idx : Nat) (net : Int) (s1 : VentureState),
      applyBoonPurchase st b idx net = some s1 →
      s1.treasury = st.treasury - b.cost ∧ 0 ≤ s1.treasury) ∧
    (∀ (t : Int) (w : Wallet) (d : Int) (p : PromptOutcome),
      0 ≤ t → 0 ≤ (maybeCoverDeficitTreasuryOrActor t w d p).2.1) ∧
    (∀ (f : FacilityMeta) (c : VentureConfig) (s : VentureState) (w : Wallet)
        (i : TurnInput) (u : UsageMap) (o : TurnOutput),
      c.gpPerPoint = 0 → processSingleVenture f c s w i u = some o →
      o.result.income = 0 ∧ o.result.outgoings = 0 ∧ o.result.net = 0) := by
  refine ⟨?_, ?_, ?_, ?_, ?_⟩
  · intro raw c
    constructor
    · simp only [sanitizeState, asIntegerInt]
      omega
    · simp only [sanitizeState, asIntegerInt]
      omega
  · intro f c s w i u o h ht
    exact ⟨process_treasury_nonneg f c s w i u o h ht,
      Int.ofNat_nonneg _, Int.ofNat_nonneg _, Int.ofNat_nonneg _,
      Int.ofNat_nonneg _, Int.ofNat_nonneg _⟩
  · intro st b idx net s1 h
    exact applyBoonPurchase_treasury st b idx net s1 h
  · intro t w d p ht
    exact maybeCover_treasury_nonneg t w d p ht
  · intro f c s w i u o hgp h
    have helig := processSingleVenture_elig f c s w i u o h
    simp only [processSingleVenture, helig, Bool.not_true, Bool.false_eq_true, if_false,
      Option.some.injEq] at h
    subst h
    simp [hgp]

/-- Witness for C7: a corrupted raw state sanitizes to non-negative funds; a
declined 400 gp loss from treasury 0 ends non-negative; a 100 gp boon bought
from a 500 gp treasury leaves 400; a zero gold-per-point rate zeroes income
and outgo on a 5/2 roll pair. -/
theorem nonnegative_money_invariants_witness :
    0 ≤ (sanitizeState
        { currentProfitDie := "bogus", streak := -5, treasury := -100, failed := false
          lastTurnNet := -3, turnId := "", boonPurchasesTurnId := "", boonPurchases := [] }
        exampleConfig).treasury ∧
    0 ≤ (turnOutputAt exampleFacility exampleConfig exampleState exampleWallet
        { exampleInput with profitRollTotal := 1, lossRollTotal := 5 } []).state.treasury ∧
    0 ≤ (maybeCoverDeficitTreasuryOrActor 150 exampleWallet 400
        (.localDecision .decline)).2.1 ∧
    (turnOutputAt exampleFacility { exampleConfig with gpPerPoint := 0 } exampleState
        exampleWallet exampleInput []).result.income = 0 ∧
    (turnOutputAt exampleFacility { exampleConfig with gpPerPoint := 0 } exampleState
        exampleWallet exampleInput []).result.outgoings = 0 := by
  refine ⟨(nonnegative_money_invariants.1 _ exampleConfig).1,
    (nonnegative_money_invariants.2.1 exampleFacility exampleConfig exampleState exampleWallet
      { exampleInput with profitRollTotal := 1, lossRollTotal := 5 } [] _
      (by rfl) (by decide)).1,
    nonnegative_money_invariants.2.2.2.1 150 exampleWallet 400 (.localDecision .decline)
      (by decide),
    ?_, ?_⟩
  · exact (nonnegative_money_invariants.2.2.2.2 exampleFacility
      { exampleConfig with gpPerPoint := 0 } exampleState exampleWallet exampleInput [] _
      (by rfl) (by rfl)).1
  · exact (nonnegative_money_invariants.2.2.2.2 exampleFacility
      { exampleConfig with gpPerPoint := 0 } exampleState exampleWallet exampleInput [] _
      (by rfl) (by rfl)).2.1

/-! # Claim C8 -/

theorem buildGroupLimitMapGo_get (boons : List Boon) (m : List (String × Int)) (gk : String)
    (hgk : gk ≠ "") :
    alistGet (buildGroupLimitMapGo m boons) gk =
      match alistGet m gk, tightestGroupLimit boons gk with
      | none, t => t
      | some e, none => some e
      | some e, some t => some (min e t) := by
  induction boons generalizing m with
  | nil =>
    simp only [buildGroupLimitMapGo, tightestGroupLimit]
    cases hget : alistGet m gk <;> simp [hget]
  | cons b rest ih =>
    simp only [buildGroupLimitMapGo, tightestGroupLimit]
    by_cases hempty : buildBoonGroupKey b = ""
    · have hne : ¬ buildBoonGroupKey b = gk := by
        rw [hempty]
        exact fun hc => hgk hc.symm
      simp only [if_pos hempty, if_neg hne]
      exact ih m
    · simp only [if_neg hempty]
      by_cases hbk : buildBoonGroupKey b = gk
      · simp only [if_pos hbk]
        cases hrep : reparsePerTurnLimit b.groupPerTurnLimit with
        | none => simpa using ih m
        | some l =>
          cases hex : alistGet m (buildBoonGroupKey b) with
          | none =>
            rw [ih (alistSet m (buildBoonGroupKey b) l)]
            rw [hbk] at hex ⊢
            rw [alistGet_alistSet_self, hex]
            cases tightestGroupLimit rest gk <;> simp
          | some e =>
            rw [ih (alistSet m (buildBoonGroupKey b) (min e l))]
            rw [hbk] at hex ⊢
            rw [alistGet_alistSet_self, hex]
            cases tightestGroupLimit rest gk <;> simp [min_assoc]
      · simp only [if_neg hbk]
        cases hrep : reparsePerTurnLimit b.groupPerTurnLimit with
        | none => exact ih m
        | some l =>
          cases hex : alistGet m (buildBoonGroupKey b) with
          | none =>
            rw [ih (alistSet m (buildBoonGroupKey b) l),
              alistGet_alistSet_ne _ _ _ _ (fun hc => hbk hc.symm)]
          | some e =>
            rw [ih (alistSet m (buildBoonGroupKey b) (min e l)),
              alistGet_alistSet_ne _ _ _ _ (fun hc => hbk hc.symm)]

theorem buildGroupLimitMap_get (boons : List Boon) (gk : String) (hgk : gk ≠ "") :
    alistGet (buildGroupLimitMap boons) gk = tightestGroupLimit boons gk := by
  rw [buildGroupLimitMap, buildGroupLimitMapGo_get boons [] gk hgk]
  cases tightestGroupLimit boons gk <;> simp [alistGet]

theorem getBoonPurchasesThisTurn_nonneg (state : VentureState) (i : Nat) (key : String) :
    0 ≤ getBoonPurchasesThisTurn state i key := by
  unfold getBoonPurchasesThisTurn
  repeat' split
  all_goals try dsimp only
  all_goals omega

theorem groupPurchasedSumFrom_nonneg (state : VentureState) (idx : Nat) (boons : List Boon)
    (gk : String) : 0 ≤ groupPurchasedSumFrom state idx boons gk := by
  induction boons generalizing idx with
  | nil => simp [groupPurchasedSumFrom]
  | cons b rest ih =>
    simp only [groupPurchasedSumFrom]
    have h1 := getBoonPurchasesThisTurn_nonneg state idx (buildBoonKey b)
    have h2 := ih (idx + 1)
    split <;> omega

theorem buildGroupPurchaseCountMapGo_get (state : VentureState) (boons : List Boon)
    (idx : Nat) (m : List (String × Int)) (gk : String) (hgk : gk ≠ "") :
    (alistGet (buildGroupPurchaseCountMapGo state idx m boons) gk).getD 0 =
      (alistGet m gk).getD 0 + groupPurchasedSumFrom state idx boons gk := by
  induction boons generalizing idx m with
  | nil => simp [buildGroupPurchaseCountMapGo, groupPurchasedSumFrom]
  | cons b rest ih =>
    simp only [buildGroupPurchaseCountMapGo, groupPurchasedSumFrom]
    by_cases hempty : buildBoonGroupKey b = ""
    · have hne : ¬ buildBoonGroupKey b = gk := by
        rw [hempty]
        exact fun hc => hgk hc.symm
      simp only [if_pos hempty, if_neg hne]
      rw [ih (idx + 1) m]
      omega
    · simp only [if_neg hempty]
      by_cases hbk : buildBoonGroupKey b = gk
      · simp only [if_pos hbk]
        rw [ih (idx + 1) _]
        rw [hbk, alistGet_alistSet_self]
        simp only [Option.getD_some]
        omega
      · simp only [if_neg hbk]
        rw [ih (idx + 1) _, alistGet_alistSet_ne _ _ _ _ (fun hc => hbk hc.symm)]
        omega

theorem buildGroupPurchaseCountMap_get (boons : List Boon) (state : VentureState)
    (gk : String) (hgk : gk ≠ "") :
    (alistGet (buildGroupPurchaseCountMap boons state) gk).getD 0 =
      groupPurchasedSum state boons gk := by
  rw [buildGroupPurchaseCountMap, buildGroupPurchaseCountMapGo_get state boons 0 [] gk hgk,
    groupPurchasedSum]
  simp [alistGet]

theorem tightest_none_of_mem (boons : List Boon) (b : Boon) (gk : String)
    (hmem : b ∈ boons) (hbk : buildBoonGroupKey b = gk)
    (hnone : tightestGroupLimit boons gk = none) :
    reparsePerTurnLimit b.groupPerTurnLimit = none := by
  induction boons with
  | nil => cases hmem
  | cons b0 rest ih =>
    simp only [tightestGroupLimit] at hnone
    rcases List.mem_cons.mp hmem with h0 | hrest
    · subst h0
      rw [if_pos hbk] at hnone
      cases hrep : reparsePerTurnLimit b.groupPerTurnLimit with
      | none => rfl
      | some l =>
        rw [hrep] at hnone
        cases htail : tightestGroupLimit rest gk <;> rw [htail] at hnone <;> cases hnone
    · apply ih hrest
      cases hc : (if buildBoonGroupKey b0 = gk then reparsePerTurnLimit b0.groupPerTurnLimit else none) with
      | none => rw [hc] at hnone; exact hnone
      | some l =>
        rw [hc] at hnone
        cases htail : tightestGroupLimit rest gk <;> rw [htail] at hnone <;> cases hnone

theorem evaluateBoonsGo_get (glm gcm : List (String × Int)) (state : VentureState)
    (net : Int) (boons : List Boon) (j i : Nat) :
    (evaluateBoonsGo glm gcm state net j boons).get? i =
      (boons.get? i).map (fun b => evaluateBoon glm gcm state net (j + i) b) := by
  induction boons generalizing j i with
  | nil => simp [evaluateBoonsGo]
  | cons b rest ih =>
    cases i with
    | zero => simp [evaluateBoonsGo]
    | succ k =>
      simp only [evaluateBoonsGo, List.get?]
      rw [ih (j + 1) k]
      have hidx : j + 1 + k = j + (k + 1) := by omega
      rw [hidx]

theorem applyFailureOrDegrade_boons (agg : Aggregate) (c : VentureConfig)
    (st : VentureState) (cov : Bool) :
    (applyFailureOrDegrade agg c st cov).1.boons = c.boons := by
  unfold applyFailureOrDegrade
  repeat' split
  all_goals rfl

theorem settleNet_config_boons (c : VentureConfig) (s : VentureState) (w : Wallet)
    (u : UsageMap) (agg : Aggregate) (g : List String) (p : PromptOutcome)
    (net thr : Int) (pen : Bool) :
    (settleNet c s w u agg g p net pen thr).config.boons = c.boons := by
  unfold settleNet
  dsimp only
  repeat' split
  all_goals try simp only [applyFailureOrDegrade_boons]
  all_goals rfl

theorem process_boons_eq (f : FacilityMeta) (c : VentureConfig) (s : VentureState)
    (w : Wallet) (i : TurnInput) (u : UsageMap) (o : TurnOutput)
    (h : processSingleVenture f c s w i u = some o) :
    o.result.boons = evaluateBoons c.boons o.state o.result.net := by
  have helig := processSingleVenture_elig f c s w i u o h
  simp only [processSingleVenture, helig, Bool.not_true, Bool.false_eq_true, if_false,
    Option.some.injEq] at h
  subst h
  dsimp only
  rw [settleNet_config_boons]

set_option maxHeartbeats 1000000 in
theorem evaluateBoons_purchasable_iff (boons : List Boon) (state : VentureState) (net : Int)
    (idx : Nat) (b : Boon) (ev : BoonEval)
    (hb : boons.get? idx = some b)
    (hev : (evaluateBoons boons state net).get? idx = some ev) :
    (ev.purchasable = true ↔
      (b.cost ≤ state.treasury ∧
       (∀ l, reparsePerTurnLimit b.perTurnLimit = some l →
          getBoonPurchasesThisTurn state idx (buildBoonKey b) < l) ∧
       (buildBoonGroupKey b ≠ "" →
          ∀ l, tightestGroupLimit boons (buildBoonGroupKey b) = some l →
            groupPurchasedSum state boons (buildBoonGroupKey b) < l) ∧
       (match b.purchaseWhen with
        | PurchaseWhen.loss => net ≤ 0
        | PurchaseWhen.profit => 0 ≤ net
        | PurchaseWhen.default => True))) := by
  have hmem : b ∈ boons := List.get?_mem hb
  rw [evaluateBoons, evaluateBoonsGo_get _ _ _ _ _ 0 idx, hb] at hev
  simp only [Option.map_some', Option.some.injEq, Nat.zero_add] at hev
  subst hev
  simp only [evaluateBoon]
  have hA : (decide (state.treasury ≥ b.cost) = true) ↔ b.cost ≤ state.treasury := by
    simp [ge_iff_le]
  have hD : (boonPurchaseWhenAllows b.purchaseWhen net = true) ↔
      (match b.purchaseWhen with
       | PurchaseWhen.loss => net ≤ 0
       | PurchaseWhen.profit => 0 ≤ net
       | PurchaseWhen.default => True) := by
    cases b.purchaseWhen <;> simp [boonPurchaseWhenAllows, ge_iff_le]
  have hB : ((match reparsePerTurnLimit b.perTurnLimit with
        | none => true
        | some l => decide (getBoonPurchasesThisTurn state idx (buildBoonKey b) < l)) = true) ↔
      (∀ l, reparsePerTurnLimit b.perTurnLimit = some l →
        getBoonPurchasesThisTurn state idx (buildBoonKey b) < l) := by
    cases hrep : reparsePerTurnLimit b.perTurnLimit <;> simp [hrep]
  by_cases hgk : buildBoonGroupKey b = ""
  · simp only [hgk]
    simp only [decide_True, Bool.true_or, Bool.and_true]
    constructor
    · intro hp
      simp only [Bool.and_eq_true] at hp
      obtain ⟨⟨ha, hb2⟩, hd⟩ := hp
      exact ⟨hA.mp ha, hB.mp hb2, fun hc => absurd rfl hc, hD.mp hd⟩
    · intro ⟨ha, hb2, _, hd⟩
      simp only [Bool.and_eq_true]
      exact ⟨⟨hA.mpr ha, hB.mpr hb2⟩, hD.mpr hd⟩
  · have hmap : (if buildBoonGroupKey b = "" then none
        else alistGet (buildGroupLimitMap boons) (buildBoonGroupKey b)) =
        tightestGroupLimit boons (buildBoonGroupKey b) := by
      rw [if_neg hgk]
      exact buildGroupLimitMap_get boons _ hgk
    have hcount : (if buildBoonGroupKey b = "" then 0
        else
          max ((alistGet (buildGroupPurchaseCountMap boons state) (buildBoonGroupKey b)).getD 0) 0) =
        groupPurchasedSum state boons (buildBoonGroupKey b) := by
      rw [if_neg hgk, buildGroupPurchaseCountMap_get boons state _ hgk]
      have := groupPurchasedSumFrom_nonneg state 0 boons (buildBoonGroupKey b)
      rw [groupPurchasedSum]
      omega
    rw [hmap, hcount]
    have hC : ((decide (buildBoonGroupKey b = "") ||
        match
          (match tightestGroupLimit boons (buildBoonGroupKey b) with
          | none => reparsePerTurnLimit b.groupPerTurnLimit
          | some v => some v) with
        | none => true
        | some l => decide (groupPurchasedSum state boons (buildBoonGroupKey b) < l)) = true) ↔
        (buildBoonGroupKey b ≠ "" →
          ∀ l, tightestGroupLimit boons (buildBoonGroupKey b) = some l →
            groupPurchasedSum state boons (buildBoonGroupKey b) < l) := by
      cases htl : tightestGroupLimit boons (buildBoonGroupKey b) with
      | none =>
        have hrepg := tightest_none_of_mem boons b _ hmem rfl htl
        simp [hgk, hrepg]
      | some t =>
        simp [hgk, htl]
    rw [Bool.and_eq_true, Bool.and_eq_true, Bool.and_eq_true, hA, hB, hC, hD]
    exact ⟨fun h => ⟨h.1.1.1, h.1.1.2, h.1.2, h.2⟩,
      fun h => ⟨⟨⟨h.1, h.2.1⟩, h.2.2.1⟩, h.2.2.2⟩⟩

/-- Claim C8: an evaluated boon of a processed turn is purchasable iff the
post-turn treasury covers its cost, its per-turn count is under its limit
(or unlimited), its group's purchased sum is under the tightest limit
declared among all boons of the group (or unlimited, or no group), and the
turn's net satisfies the boon's purchase window. -/
theorem boon_purchasable_iff (f : FacilityMeta) (c : VentureConfig) (s : VentureState)
    (w : Wallet) (i : TurnInput) (u : UsageMap) (o : TurnOutput)
    (h : processSingleVenture f c s w i u = some o)
    (idx : Nat) (b : Boon) (ev : BoonEval)
    (hb : c.boons.get? idx = some b)
    (hev : o.result.boons.get? idx = some ev) :
    (ev.purchasable = true ↔
      (b.cost ≤ o.state.treasury ∧
       (∀ l, reparsePerTurnLimit b.perTurnLimit = some l →
          getBoonPurchasesThisTurn o.state idx (buildBoonKey b) < l) ∧
       (buildBoonGroupKey b ≠ "" →
          ∀ l, tightestGroupLimit c.boons (buildBoonGroupKey b) = some l →
            groupPurchasedSum o.state c.boons (buildBoonGroupKey b) < l) ∧
       (match b.purchaseWhen with
        | PurchaseWhen.loss => o.result.net ≤ 0
        | PurchaseWhen.profit => 0 ≤ o.result.net
        | PurchaseWhen.default => True))) := by
  rw [process_boons_eq f c s w i u o h] at hev
  exact evaluateBoons_purchasable_iff c.boons o.state o.result.net idx b ev hb hev

/-- Witness for C8: after the example profitable turn (net 300) the example
boon (cost 100, limit 1, group limit 2, default window) is reported
purchasable. -/
theorem boon_purchasable_iff_witness :
    (boonEvalAt (turnOutputAt exampleFacility exampleBoonConfig exampleState exampleWallet
      exampleInput []) 0).purchasable = true := by
  refine (boon_purchasable_iff exampleFacility exampleBoonConfig exampleState exampleWallet
    exampleInput []
    (turnOutputAt exampleFacility exampleBoonConfig exampleState exampleWallet exampleInput [])
    (by rfl) 0 exampleBoon
    (boonEvalAt (turnOutputAt exampleFacility exampleBoonConfig exampleState exampleWallet
      exampleInput []) 0)
    (by rfl) (by rfl)).mpr ?_
  refine ⟨by decide, ?_, ?_, by trivial⟩
  · intro l hl
    have hl' : (some 1 : Option Int) = some l := hl
    injection hl' with h1
    subst h1
    decide
  · intro _ l hl
    have hl' : (some 2 : Option Int) = some l := hl
    injection hl' with h2
    subst h2
    decide

/-! # Claim C9 -/

theorem process_skip_of_contains (env : GameEnv) (w : World)
    (h : w.session.processedBastionMessages.contains w.message.uuid = true) :
    processActorVenturesFromBastionMessage env w = w := by
  unfold processActorVenturesFromBastionMessage
  dsimp only
  repeat' split
  all_goals try rfl
  all_goals simp_all

set_option maxHeartbeats 2000000 in
/-- Claim C9: turn-trigger processing is idempotent for an actor. First,
re-delivering any message to the handler after one invocation is a no-op
(the in-memory `processedBastionMessages` set short-circuits it). Second, a
different message carrying the same stable bastion turn id for the same
actor is skipped outright by the `processedActorTurnKeys` set. Third, a
message already carrying the persisted processed-marker never touches the
actor document (no treasury charge, die movement or wallet spend), covering
the restart scenario. -/
theorem venture_turn_idempotent (env : GameEnv) (w : World) :
    processActorVenturesFromBastionMessage env
        (processActorVenturesFromBastionMessage env w) =
      processActorVenturesFromBastionMessage env w ∧
    (∀ bastion, w.message.processedFlag = false →
       w.message.bastion = some bastion →
       buildBastionDedupKey bastion ≠ "" →
       w.session.processedActorTurnKeys.contains
           (w.actor.uuid ++ "::" ++ buildBastionDedupKey bastion) = true →
       processActorVenturesFromBastionMessage env w = w) ∧
    (w.message.processedFlag = true →
       (processActorVenturesFromBastionMessage env w).actor = w.actor) := by
  by_cases hq1 : (!currentUserIsGM env) = true
  · have hw : processActorVenturesFromBastionMessage env w = w := by
      unfold processActorVenturesFromBastionMessage
      rw [if_pos hq1]
    exact ⟨by rw [hw]; exact hw, fun _ _ _ _ _ => hw, fun _ => by rw [hw]⟩
  by_cases hq2 : (!env.integrateBastion) = true
  · have hw : processActorVenturesFromBastionMessage env w = w := by
      unfold processActorVenturesFromBastionMessage
      rw [if_neg hq1, if_pos hq2]
    exact ⟨by rw [hw]; exact hw, fun _ _ _ _ _ => hw, fun _ => by rw [hw]⟩
  by_cases hq3 : (w.message.isRoll || decide (w.message.rollsCount > 0)) = true
  · have hw : processActorVenturesFromBastionMessage env w = w := by
      unfold processActorVenturesFromBastionMessage
      rw [if_neg hq1, if_neg hq2, if_pos hq3]
    exact ⟨by rw [hw]; exact hw, fun _ _ _ _ _ => hw, fun _ => by rw [hw]⟩
  by_cases hq4 : w.message.uuid = ""
  · have hw : processActorVenturesFromBastionMessage env w = w := by
      unfold processActorVenturesFromBastionMessage
      dsimp only
      rw [if_neg hq1, if_neg hq2, if_neg hq3, if_pos hq4]
    exact ⟨by rw [hw]; exact hw, fun _ _ _ _ _ => hw, fun _ => by rw [hw]⟩
  by_cases hq5 : w.session.processedBastionMessages.contains w.message.uuid = true
  · have hw : processActorVenturesFromBastionMessage env w = w := by
      unfold processActorVenturesFromBastionMessage
      dsimp only
      rw [if_neg hq1, if_neg hq2, if_neg hq3, if_neg hq4, if_pos hq5]
    exact ⟨by rw [hw]; exact hw, fun _ _ _ _ _ => hw, fun _ => by rw [hw]⟩
  by_cases hq6 : w.message.processedFlag = true
  · have hw : processActorVenturesFromBastionMessage env w =
        { w with
            session :=
              { w.session with
                  processedBastionMessages :=
                    w.message.uuid :: w.session.processedBastionMessages } } := by
      unfold processActorVenturesFromBastionMessage
      dsimp only
      rw [if_neg hq1, if_neg hq2, if_neg hq3, if_neg hq4, if_neg hq5, if_pos hq6]
    refine ⟨?_, ?_, ?_⟩
    · rw [hw]
      apply process_skip_of_contains
      dsimp only
      simp only [List.contains_cons, beq_self_eq_true, Bool.true_or]
    · intro _ hflag _ _ _
      rw [hflag] at hq6
      cases hq6
    · intro _
      rw [hw]
  by_cases hq7 : primaryGmId env ≠ some env.currentUserId
  · have hw : processActorVenturesFromBastionMessage env w = w := by
      unfold processActorVenturesFromBastionMessage
      dsimp only
      rw [if_neg hq1, if_neg hq2, if_neg hq3, if_neg hq4, if_neg hq5, if_neg hq6, if_pos hq7]
    exact ⟨by rw [hw]; exact hw, fun _ _ _ _ _ => hw, fun _ => by rw [hw]⟩
  rcases hm : w.message.bastion with _ | bastion
  · have hw : processActorVenturesFromBastionMessage env w = w := by
      unfold processActorVenturesFromBastionMessage
      dsimp only
      rw [if_neg hq1, if_neg hq2, if_neg hq3, if_neg hq4, if_neg hq5, if_neg hq6, if_neg hq7, hm]
    exact ⟨by rw [hw]; exact hw, fun _ _ _ _ _ => hw, fun _ => by rw [hw]⟩
  by_cases hq8 : (!bastion.hasOrders) = true
  · have hw : processActorVenturesFromBastionMessage env w = w := by
      unfold processActorVenturesFromBastionMessage
      dsimp only
      rw [if_neg hq1, if_neg hq2, if_neg hq3, if_neg hq4, if_neg hq5, if_neg hq6, if_neg hq7, hm]
      dsimp only
      rw [if_pos hq8]
    exact ⟨by rw [hw]; exact hw, fun _ _ _ _ _ => hw, fun _ => by rw [hw]⟩
  by_cases hq9 : (!w.actorFound || !w.actor.isCharacter) = true
  · have hw : processActorVenturesFromBastionMessage env w = w := by
      unfold processActorVenturesFromBastionMessage
      dsimp only
      rw [if_neg hq1, if_neg hq2, if_neg hq3, if_neg hq4, if_neg hq5, if_neg hq6, if_neg hq7, hm]
      dsimp only
      rw [if_neg hq8, if_pos hq9]
    exact ⟨by rw [hw]; exact hw, fun _ _ _ _ _ => hw, fun _ => by rw [hw]⟩
  by_cases hq10 : buildBastionDedupKey bastion ≠ "" ∧
      w.session.processedActorTurnKeys.contains
        (w.actor.uuid ++ "::" ++ buildBastionDedupKey bastion) = true
  · have hw : processActorVenturesFromBastionMessage env w = w := by
      unfold processActorVenturesFromBastionMessage
      dsimp only
      rw [if_neg hq1, if_neg hq2, if_neg hq3, if_neg hq4, if_neg hq5, if_neg hq6, if_neg hq7, hm]
      dsimp only
      rw [if_neg hq8, if_neg hq9, if_pos hq10]
    exact ⟨by rw [hw]; exact hw, fun _ _ _ _ _ => hw, fun _ => by rw [hw]⟩
  · refine ⟨?_, ?_, ?_⟩
    · apply process_skip_of_contains
      rw [processActorVenturesFromBastionMessage]
      dsimp only
      rw [if_neg hq1, if_neg hq2, if_neg hq3, if_neg hq4, if_neg hq5, if_neg hq6, if_neg hq7,
        hm]
      dsimp only
      rw [if_neg hq8, if_neg hq9, if_neg hq10]
      dsimp only
      simp only [List.contains_cons, beq_self_eq_true, Bool.true_or]
    · intro bastion2 hflag hb hdk hct
      injection hb with hbe
      subst hbe
      exact absurd ⟨hdk, hct⟩ hq10
    · intro hflag
      exact absurd hflag hq6

/-- Witness for C9 at the example world: the second delivery of the example
message is a no-op, the duplicate-turn-id world is skipped unchanged, and
the flagged world's actor is untouched. -/
theorem venture_turn_idempotent_witness :
    processActorVenturesFromBastionMessage exampleEnv
        (processActorVenturesFromBastionMessage exampleEnv exampleWorld) =
      processActorVenturesFromBastionMessage exampleEnv exampleWorld ∧
    processActorVenturesFromBastionMessage exampleEnv exampleDupWorld = exampleDupWorld ∧
    (processActorVenturesFromBastionMessage exampleEnv exampleFlaggedWorld).actor =
      exampleFlaggedWorld.actor :=
  ⟨(venture_turn_idempotent exampleEnv exampleWorld).1,
   (venture_turn_idempotent exampleEnv exampleDupWorld).2.1 exampleBastion (by rfl) (by rfl)
     (by decide) (by decide),
   (venture_turn_idempotent exampleEnv exampleFlaggedWorld).2.2 (by rfl)⟩

end IndyVentures
